import Mathlib

/-!
Dreamwave: delivery and transfer pages, product route.

A shallow embedding of the client-side handlers of
`src/app/(main)/deliveries/page.jsx` and `src/app/(main)/transfers/page.jsx`,
and of the `DELETE` handler of `src/app/api/product/route.js`.  The server
routes that move stock are not in the sources; the movement engine they
implement is modelled from the spec in the namespace `Engine`.

React state is an explicit record; every handler is a function from the state
before the call to the state after it, together with the HTTP requests it
issues.  Text fields hold strings, exactly as in the pages, and the JavaScript
conversion `Number(text)` is a parameter `Number : String → JSNum` of every
handler that calls it, so that the theorems hold for whatever the host's
conversion returns.  `parseNumber` is a concrete conversion for plain decimal
literals, used to evaluate the handlers on concrete inputs.
-/

namespace Dreamwave

/-! ## JavaScript numbers -/

/-- A JavaScript number: `NaN`, a finite value, or one of the two infinities.
A finite double is represented by its exact rational value; `+0` and `-0` are
both `fin 0` (the operations used by the pages do not tell them apart). -/
inductive JSNum where
  | nan
  | fin (q : ℚ)
  | posInf
  | negInf
  deriving DecidableEq

namespace JSNum

/-- The number of an integer sent by the server (ids, stock and line quantities). -/
def ofInt (i : Int) : JSNum := fin i

/-- The number of a record id. -/
def ofNat (n : Nat) : JSNum := fin n

/-- JavaScript `a > b` on numbers: false as soon as one side is `NaN`. -/
def gt : JSNum → JSNum → Bool
  | fin a, fin b => decide (b < a)
  | posInf, fin _ => true
  | posInf, negInf => true
  | fin _, negInf => true
  | _, _ => false

/-- JavaScript `a === b` on numbers: `NaN` is equal to nothing. -/
def strictEq : JSNum → JSNum → Bool
  | nan, _ => false
  | _, nan => false
  | a, b => decide (a = b)

/-- JavaScript truthiness of a number: `NaN` and zero are falsy. -/
def truthy : JSNum → Bool
  | nan => false
  | fin q => decide (q ≠ 0)
  | _ => true

/-- JavaScript `Math.max(0, x)`: `NaN` when `x` is `NaN`. -/
def max0 : JSNum → JSNum
  | nan => nan
  | fin q => fin (max 0 q)
  | posInf => posInf
  | negInf => fin 0

/-- JavaScript `v || 0` for a property read `v` that is a number or `undefined`. -/
def orZero : Option JSNum → JSNum
  | none => fin 0
  | some x => if x.truthy then x else fin 0

/-- The order of numbers, `a ≤ b`; it fails when a side is `NaN`. -/
def le : JSNum → JSNum → Bool
  | fin a, fin b => decide (a ≤ b)
  | negInf, fin _ => true
  | negInf, negInf => true
  | negInf, posInf => true
  | fin _, posInf => true
  | posInf, posInf => true
  | _, _ => false

/-- A number that is a whole number greater than zero. -/
def isPositiveInteger : JSNum → Bool
  | fin q => decide (0 < q ∧ q.den = 1)
  | _ => false

/-- JavaScript `a + b` on numbers: `NaN` when a side is `NaN` or when the two
infinities are added. -/
def add : JSNum → JSNum → JSNum
  | fin a, fin b => fin (a + b)
  | nan, _ => nan
  | _, nan => nan
  | posInf, negInf => nan
  | negInf, posInf => nan
  | posInf, _ => posInf
  | _, posInf => posInf
  | negInf, _ => negInf
  | _, negInf => negInf

end JSNum

/-! ## A concrete `Number` for decimal literals -/

/-- The value of a decimal digit character. -/
def digitValue (c : Char) : Option Nat :=
  if c = '0' then some 0 else if c = '1' then some 1 else if c = '2' then some 2
  else if c = '3' then some 3 else if c = '4' then some 4 else if c = '5' then some 5
  else if c = '6' then some 6 else if c = '7' then some 7 else if c = '8' then some 8
  else if c = '9' then some 9 else none

/-- The value of a non-empty run of decimal digits, read after the value `acc`. -/
def digitsValue : Nat → List Char → Option Nat
  | acc, [] => some acc
  | acc, c :: cs =>
    match digitValue c with
    | some d => digitsValue (10 * acc + d) cs
    | none => none

/-- The value of `digits` or `digits.digits`, both runs non-empty. -/
def unsignedValue (cs : List Char) : Option ℚ :=
  match cs.span (fun c => c != '.') with
  | ([], _) => none
  | (whole, []) => (digitsValue 0 whole).map (fun n => (n : ℚ))
  | (_, [_]) => none
  | (whole, _ :: frac) =>
    match digitsValue 0 whole, digitsValue 0 frac with
    | some w, some f => some (mkRat (w * 10 ^ frac.length + f) (10 ^ frac.length))
    | _, _ => none

/-- `Number(text)` for the empty text (0) and for the decimal literals
`digits`, `digits.digits` with an optional sign; every other text gives `NaN`
here (JavaScript also reads exponents, hexadecimal, `Infinity` and surrounding
blanks).  On the texts it reads, the value is the one JavaScript gives whenever
that value is a double, as for small integers and halves. -/
def parseNumber (s : String) : JSNum :=
  match s.toList with
  | [] => JSNum.fin 0
  | '-' :: cs => match unsignedValue cs with
    | some q => JSNum.fin (-q)
    | none => JSNum.nan
  | '+' :: cs => match unsignedValue cs with
    | some q => JSNum.fin q
    | none => JSNum.nan
  | cs => match unsignedValue cs with
    | some q => JSNum.fin q
    | none => JSNum.nan

/-! ## Records shared by the two pages -/

/-- A row of `products`, as `GET /api/product` returns it. -/
structure Product where
  id : Nat
  name : String
  sku : String
  deriving DecidableEq

/-- A row of `warehouses`, as `GET /api/warehouse` returns it. -/
structure Warehouse where
  id : Nat
  name : String
  deriving DecidableEq

/-- Modelled from the spec: the stock rows built by `fetchStocks`; the Prisma
schema that types them is not in the sources.  A row is keyed by
`(productId, warehouseId)` and holds an integer `quantity`. -/
structure Stock where
  productId : Nat
  warehouseId : Nat
  quantity : Int
  deriving DecidableEq

/-- The `message` state: `{ type, text }`. -/
structure Message where
  type : String
  text : String
  deriving DecidableEq

/-- The answer of the server to a request the page awaits: success, or a
failure whose body may carry a `message`. -/
inductive Reply where
  | ok
  | error (message : Option String)
  deriving DecidableEq

/-- JavaScript `error.response?.data?.message || fallback`: a missing or empty
message gives the fallback. -/
def errorText (message : Option String) (fallback : String) : String :=
  match message with
  | some m => if m = "" then fallback else m
  | none => fallback

/-- JavaScript `obj[key]` on the `validationData` object: the value stored
under the key, `undefined` when there is none. -/
def lookupQty (data : List (Nat × JSNum)) (key : Nat) : Option JSNum :=
  (data.find? (fun p => p.1 == key)).map Prod.snd

/-- JavaScript `{ ...data, [key]: value }`: the value under an existing key is
replaced in place, a new key is added at the end. -/
def setQty : List (Nat × JSNum) → Nat → JSNum → List (Nat × JSNum)
  | [], key, value => [(key, value)]
  | p :: rest, key, value =>
    if p.1 = key then (key, value) :: rest else p :: setQty rest key value

/-- JavaScript `items.filter((_, i) => i !== index)`. -/
def removeAt {α : Type} (items : List α) (index : Nat) : List α :=
  (items.enum.filter (fun p => p.1 != index)).map Prod.snd

/-! ## The deliveries page -/

namespace Deliveries

/-- A line of the create form, as `addItemToDelivery` builds it. -/
structure FormItem where
  productId : JSNum
  productName : Option String
  productSku : Option String
  quantity : JSNum
  warehouseId : JSNum
  warehouseName : Option String
  deriving DecidableEq

/-- The `formData` state. -/
structure FormData where
  customer : String
  items : List FormItem
  deriving DecidableEq

/-- The `currentItem` state: the three inputs of the line being entered. -/
structure CurrentItem where
  productId : String
  quantity : String
  warehouseId : String
  deriving DecidableEq

/-- A line of a delivery sent by the server.  The page reads `id` and
`quantity`; `productId` and `warehouseId` are the fields the create payload
gave the line. -/
structure DeliveryItem where
  id : Nat
  productId : Nat
  warehouseId : Nat
  quantity : Int
  deriving DecidableEq

/-- A delivery document sent by the server. -/
structure Delivery where
  id : Nat
  customer : String
  status : String
  items : List DeliveryItem
  deriving DecidableEq

/-- A line of the body of `POST /api/delivery`. -/
structure CreateLine where
  productId : JSNum
  quantity : JSNum
  warehouseId : JSNum
  deriving DecidableEq

/-- The body of `POST /api/delivery`. -/
structure CreatePayload where
  customer : String
  items : List CreateLine
  deriving DecidableEq

/-- A line of the body of `PATCH /api/delivery`. -/
structure ValidateLine where
  deliveryItemId : Nat
  deliveredQty : JSNum
  deriving DecidableEq

/-- The body of `PATCH /api/delivery`. -/
structure ValidatePayload where
  deliveryId : Nat
  status : String
  items : List ValidateLine
  deriving DecidableEq

/-- An HTTP request issued by the page. -/
inductive Request where
  | getDeliveries
  | getProducts
  | getWarehouses
  | getStocks
  | create (payload : CreatePayload)
  | validate (payload : ValidatePayload)
  deriving DecidableEq

/-- The React state of `DeliveriesPage`. -/
structure State where
  deliveries : List Delivery
  products : List Product
  warehouses : List Warehouse
  stocks : List Stock
  loadingDeliveries : Bool
  showForm : Bool
  selectedDelivery : Option Delivery
  showDetailsModal : Bool
  formData : FormData
  currentItem : CurrentItem
  message : Message
  validationData : List (Nat × JSNum)
  deriving DecidableEq

/-- The state of the page when it is mounted: the `useState` initial values. -/
def State.init : State where
  deliveries := []
  products := []
  warehouses := []
  stocks := []
  loadingDeliveries := false
  showForm := false
  selectedDelivery := none
  showDetailsModal := false
  formData := { customer := "", items := [] }
  currentItem := { productId := "", quantity := "", warehouseId := "" }
  message := { type := "", text := "" }
  validationData := []

/-- The inputs bound to `handleItemChange`. -/
inductive ItemField where
  | productId
  | quantity
  | warehouseId
  deriving DecidableEq

/-- `handleFormChange`, bound to the customer input (`name="customer"`). -/
def handleFormChange (s : State) (value : String) : State :=
  { s with formData := { s.formData with customer := value } }

/-- `handleItemChange`: stores the text of one input of the current line. -/
def handleItemChange (s : State) (name : ItemField) (value : String) : State :=
  match name with
  | .productId => { s with currentItem := { s.currentItem with productId := value } }
  | .quantity => { s with currentItem := { s.currentItem with quantity := value } }
  | .warehouseId => { s with currentItem := { s.currentItem with warehouseId := value } }

/-- `getAvailableStock`: 0 when product or warehouse is not selected, else the
quantity of the first stock row of the selected pair, 0 when there is none. -/
def getAvailableStock (Number : String → JSNum) (s : State) : Int :=
  if s.currentItem.productId = "" ∨ s.currentItem.warehouseId = "" then 0
  else
    match s.stocks.find? (fun st =>
        (JSNum.ofNat st.productId).strictEq (Number s.currentItem.productId) &&
        (JSNum.ofNat st.warehouseId).strictEq (Number s.currentItem.warehouseId)) with
    | some stock => stock.quantity
    | none => 0

/-- `addItemToDelivery`. -/
def addItemToDelivery (Number : String → JSNum) (s : State) : State :=
  if s.currentItem.productId = "" ∨ s.currentItem.quantity = "" ∨
      s.currentItem.warehouseId = "" then
    { s with message :=
        { type := "error", text := "Please select product, warehouse, and quantity" } }
  else
    let availableStock := getAvailableStock Number s
    if (Number s.currentItem.quantity).gt (JSNum.ofInt availableStock) then
      { s with message :=
          { type := "error",
            text := "Only " ++ toString availableStock ++ " units available" } }
    else
      let product := s.products.find? (fun p =>
        (JSNum.ofNat p.id).strictEq (Number s.currentItem.productId))
      let warehouse := s.warehouses.find? (fun w =>
        (JSNum.ofNat w.id).strictEq (Number s.currentItem.warehouseId))
      { s with
        formData := { s.formData with
          items := s.formData.items ++
            [{ productId := Number s.currentItem.productId
               productName := product.map (fun p => p.name)
               productSku := product.map (fun p => p.sku)
               quantity := Number s.currentItem.quantity
               warehouseId := Number s.currentItem.warehouseId
               warehouseName := warehouse.map (fun w => w.name) }] }
        currentItem := { productId := "", quantity := "", warehouseId := "" }
        message := { type := "", text := "" } }

/-- `removeItemFromDelivery`. -/
def removeItemFromDelivery (s : State) (index : Nat) : State :=
  { s with formData := { s.formData with items := removeAt s.formData.items index } }

/-- The payload `handleSubmit` builds from `formData`. -/
def createPayload (f : FormData) : CreatePayload where
  customer := f.customer
  items := f.items.map (fun item =>
    { productId := item.productId, quantity := item.quantity,
      warehouseId := item.warehouseId })

/-- `handleSubmit`, up to the answer of the server: the state after the call
and the requests issued.  The form is reset one second after a success, by
`handleSubmitTimeout`. -/
def handleSubmit (s : State) (reply : Reply) : State × List Request :=
  let s := { s with message := { type := "", text := "" } }
  if s.formData.customer = "" ∨ s.formData.items.length = 0 then
    ({ s with message :=
        { type := "error", text := "Please fill customer name and add items" } }, [])
  else
    match reply with
    | .ok =>
      ({ s with message := { type := "success", text := "Delivery created successfully" } },
        [Request.create (createPayload s.formData)])
    | .error m =>
      ({ s with message :=
          { type := "error", text := errorText m "Failed to create delivery" } },
        [Request.create (createPayload s.formData)])

/-- The `setTimeout` callback of `handleSubmit`: resets the form, hides it and
starts `fetchDeliveries`. -/
def handleSubmitTimeout (s : State) : State × List Request :=
  ({ s with
     formData := { customer := "", items := [] }
     showForm := false
     loadingDeliveries := true }, [Request.getDeliveries])

/-- `handleValidateDelivery`: selects the document and records 0 for each of
its lines. -/
def handleValidateDelivery (s : State) (delivery : Delivery) : State :=
  { s with
    selectedDelivery := some delivery
    validationData := delivery.items.foldl (fun acc item => setQty acc item.id (JSNum.fin 0)) []
    showDetailsModal := true }

/-- `handleValidationChange`. -/
def handleValidationChange (Number : String → JSNum) (s : State)
    (deliveryItemId : Nat) (value : String) : State :=
  { s with validationData := setQty s.validationData deliveryItemId (Number value).max0 }

/-- The `items` list `submitValidation` builds for the selected document. -/
def validationItems (delivery : Delivery) (data : List (Nat × JSNum)) : List ValidateLine :=
  delivery.items.map (fun item =>
    { deliveryItemId := item.id, deliveredQty := JSNum.orZero (lookupQty data item.id) })

/-- `submitValidation`: the state after the call and the requests issued. -/
def submitValidation (s : State) (reply : Reply) : State × List Request :=
  match s.selectedDelivery with
  | none => (s, [])
  | some selected =>
    let patch := Request.validate
      { deliveryId := selected.id, status := "validated",
        items := validationItems selected s.validationData }
    match reply with
    | .ok =>
      ({ s with
         message := { type := "success", text := "Delivery validated and stock updated" }
         showDetailsModal := false
         selectedDelivery := none
         validationData := []
         loadingDeliveries := true },
        [patch, Request.getDeliveries, Request.getStocks])
    | .error m =>
      ({ s with message :=
          { type := "error", text := errorText m "Failed to validate delivery" } },
        [patch])

end Deliveries

/-! ## The transfers page -/

namespace Transfers

/-- A line of the create form, as `addItemToTransfer` builds it. -/
structure FormItem where
  productId : JSNum
  productName : Option String
  productSku : Option String
  quantity : JSNum
  deriving DecidableEq

/-- The `formData` state. -/
structure FormData where
  fromWarehouseId : String
  toWarehouseId : String
  items : List FormItem
  deriving DecidableEq

/-- The `currentItem` state: the two inputs of the line being entered. -/
structure CurrentItem where
  productId : String
  quantity : String
  deriving DecidableEq

/-- A line of a transfer sent by the server.  The page reads `id` and
`quantity`; `productId` is the field the create payload gave the line. -/
structure TransferItem where
  id : Nat
  productId : Nat
  quantity : Int
  deriving DecidableEq

/-- A transfer document sent by the server. -/
structure Transfer where
  id : Nat
  fromWarehouseId : Nat
  toWarehouseId : Nat
  status : String
  items : List TransferItem
  deriving DecidableEq

/-- A line of the body of `POST /api/transfer`. -/
structure CreateLine where
  productId : JSNum
  quantity : JSNum
  deriving DecidableEq

/-- The body of `POST /api/transfer`. -/
structure CreatePayload where
  fromWarehouseId : JSNum
  toWarehouseId : JSNum
  items : List CreateLine
  deriving DecidableEq

/-- A line of the body of `PATCH /api/transfer`. -/
structure CompleteLine where
  transferItemId : Nat
  transferredQty : JSNum
  deriving DecidableEq

/-- The body of `PATCH /api/transfer`. -/
structure CompletePayload where
  transferId : Nat
  status : String
  items : List CompleteLine
  deriving DecidableEq

/-- An HTTP request issued by the page. -/
inductive Request where
  | getTransfers
  | getProducts
  | getWarehouses
  | getStocks
  | create (payload : CreatePayload)
  | complete (payload : CompletePayload)
  deriving DecidableEq

/-- The React state of `TransfersPage`. -/
structure State where
  transfers : List Transfer
  products : List Product
  warehouses : List Warehouse
  stocks : List Stock
  loadingTransfers : Bool
  showForm : Bool
  selectedTransfer : Option Transfer
  showDetailsModal : Bool
  formData : FormData
  currentItem : CurrentItem
  message : Message
  validationData : List (Nat × JSNum)
  deriving DecidableEq

/-- The state of the page when it is mounted: the `useState` initial values. -/
def State.init : State where
  transfers := []
  products := []
  warehouses := []
  stocks := []
  loadingTransfers := false
  showForm := false
  selectedTransfer := none
  showDetailsModal := false
  formData := { fromWarehouseId := "", toWarehouseId := "", items := [] }
  currentItem := { productId := "", quantity := "" }
  message := { type := "", text := "" }
  validationData := []

/-- The selects bound to `handleFormChange`. -/
inductive FormField where
  | fromWarehouseId
  | toWarehouseId
  deriving DecidableEq

/-- The inputs bound to `handleItemChange`. -/
inductive ItemField where
  | productId
  | quantity
  deriving DecidableEq

/-- `handleFormChange`: stores the value of one of the two warehouse selects;
the lines already in `items` are kept as they are. -/
def handleFormChange (s : State) (name : FormField) (value : String) : State :=
  match name with
  | .fromWarehouseId => { s with formData := { s.formData with fromWarehouseId := value } }
  | .toWarehouseId => { s with formData := { s.formData with toWarehouseId := value } }

/-- `handleItemChange`: stores the text of one input of the current line. -/
def handleItemChange (s : State) (name : ItemField) (value : String) : State :=
  match name with
  | .productId => { s with currentItem := { s.currentItem with productId := value } }
  | .quantity => { s with currentItem := { s.currentItem with quantity := value } }

/-- `getAvailableStock`: 0 when the product or the source warehouse is not
selected, else the quantity of the first stock row of the pair, 0 when there
is none. -/
def getAvailableStock (Number : String → JSNum) (s : State) : Int :=
  if s.currentItem.productId = "" ∨ s.formData.fromWarehouseId = "" then 0
  else
    match s.stocks.find? (fun st =>
        (JSNum.ofNat st.productId).strictEq (Number s.currentItem.productId) &&
        (JSNum.ofNat st.warehouseId).strictEq (Number s.formData.fromWarehouseId)) with
    | some stock => stock.quantity
    | none => 0

/-- `addItemToTransfer`. -/
def addItemToTransfer (Number : String → JSNum) (s : State) : State :=
  if s.currentItem.productId = "" ∨ s.currentItem.quantity = "" then
    { s with message := { type := "error", text := "Please select product and quantity" } }
  else if s.formData.fromWarehouseId = "" ∨ s.formData.toWarehouseId = "" then
    { s with message :=
        { type := "error", text := "Please select both source and destination warehouses" } }
  else
    let availableStock := getAvailableStock Number s
    if (Number s.currentItem.quantity).gt (JSNum.ofInt availableStock) then
      { s with message :=
          { type := "error",
            text := "Only " ++ toString availableStock ++ " units available" } }
    else
      let product := s.products.find? (fun p =>
        (JSNum.ofNat p.id).strictEq (Number s.currentItem.productId))
      { s with
        formData := { s.formData with
          items := s.formData.items ++
            [{ productId := Number s.currentItem.productId
               productName := product.map (fun p => p.name)
               productSku := product.map (fun p => p.sku)
               quantity := Number s.currentItem.quantity }] }
        currentItem := { productId := "", quantity := "" }
        message := { type := "", text := "" } }

/-- `removeItemFromTransfer`. -/
def removeItemFromTransfer (s : State) (index : Nat) : State :=
  { s with formData := { s.formData with items := removeAt s.formData.items index } }

/-- The payload `handleSubmit` builds from `formData`. -/
def createPayload (Number : String → JSNum) (f : FormData) : CreatePayload where
  fromWarehouseId := Number f.fromWarehouseId
  toWarehouseId := Number f.toWarehouseId
  items := f.items.map (fun item =>
    { productId := item.productId, quantity := item.quantity })

/-- `handleSubmit`, up to the answer of the server: the state after the call
and the requests issued.  The form is reset one second after a success, by
`handleSubmitTimeout`. -/
def handleSubmit (Number : String → JSNum) (s : State) (reply : Reply) :
    State × List Request :=
  let s := { s with message := { type := "", text := "" } }
  if s.formData.fromWarehouseId = "" ∨ s.formData.toWarehouseId = "" ∨
      s.formData.items.length = 0 then
    ({ s with message :=
        { type := "error", text := "Please fill warehouses and add items" } }, [])
  else if s.formData.fromWarehouseId = s.formData.toWarehouseId then
    ({ s with message :=
        { type := "error", text := "Source and destination must be different" } }, [])
  else
    match reply with
    | .ok =>
      ({ s with message := { type := "success", text := "Transfer created successfully" } },
        [Request.create (createPayload Number s.formData)])
    | .error m =>
      ({ s with message :=
          { type := "error", text := errorText m "Failed to create transfer" } },
        [Request.create (createPayload Number s.formData)])

/-- The `setTimeout` callback of `handleSubmit`: resets the form, hides it and
starts `fetchTransfers`. -/
def handleSubmitTimeout (s : State) : State × List Request :=
  ({ s with
     formData := { fromWarehouseId := "", toWarehouseId := "", items := [] }
     showForm := false
     loadingTransfers := true }, [Request.getTransfers])

/-- `handleCompleteTransfer`: selects the document and records 0 for each of
its lines. -/
def handleCompleteTransfer (s : State) (transfer : Transfer) : State :=
  { s with
    selectedTransfer := some transfer
    validationData := transfer.items.foldl (fun acc item => setQty acc item.id (JSNum.fin 0)) []
    showDetailsModal := true }

/-- `handleValidationChange`. -/
def handleValidationChange (Number : String → JSNum) (s : State)
    (transferItemId : Nat) (value : String) : State :=
  { s with validationData := setQty s.validationData transferItemId (Number value).max0 }

/-- The `items` list `submitCompletion` builds for the selected document. -/
def completionItems (transfer : Transfer) (data : List (Nat × JSNum)) : List CompleteLine :=
  transfer.items.map (fun item =>
    { transferItemId := item.id, transferredQty := JSNum.orZero (lookupQty data item.id) })

/-- `submitCompletion`: the state after the call and the requests issued. -/
def submitCompletion (s : State) (reply : Reply) : State × List Request :=
  match s.selectedTransfer with
  | none => (s, [])
  | some selected =>
    let patch := Request.complete
      { transferId := selected.id, status := "completed",
        items := completionItems selected s.validationData }
    match reply with
    | .ok =>
      ({ s with
         message := { type := "success", text := "Transfer completed and stock updated" }
         showDetailsModal := false
         selectedTransfer := none
         validationData := []
         loadingTransfers := true },
        [patch, Request.getTransfers, Request.getStocks])
    | .error m =>
      ({ s with message :=
          { type := "error", text := errorText m "Failed to complete transfer" } },
        [patch])

end Transfers

/-- The available stock of a `(product, warehouse)` pair in a stocks list:
the quantity of the first row of the pair, 0 when there is none. -/
def availableFor (stocks : List Stock) (productId warehouseId : JSNum) : Int :=
  match stocks.find? (fun st =>
      (JSNum.ofNat st.productId).strictEq productId &&
      (JSNum.ofNat st.warehouseId).strictEq warehouseId) with
  | some stock => stock.quantity
  | none => 0

/-! ## Sequences of calls -/

/-- A sequence of `handleValidationChange` calls on the deliveries page, each
given as the line id and the text typed. -/
def Deliveries.typeQuantities (Number : String → JSNum) (s : Deliveries.State)
    (changes : List (Nat × String)) : Deliveries.State :=
  changes.foldl (fun st c => Deliveries.handleValidationChange Number st c.1 c.2) s

/-- A sequence of `handleValidationChange` calls on the transfers page, each
given as the line id and the text typed. -/
def Transfers.typeQuantities (Number : String → JSNum) (s : Transfers.State)
    (changes : List (Nat × String)) : Transfers.State :=
  changes.foldl (fun st c => Transfers.handleValidationChange Number st c.1 c.2) s

/-- A recorded quantity that is `NaN` or at least 0: what `Math.max(0, x)`
returns. -/
def JSNum.nanOrNonneg (x : JSNum) : Bool :=
  x == JSNum.nan || (JSNum.fin 0).le x

/-- A text that `Number` reads as a number, or the empty text: what an
`<input type="number">` can hold. -/
def numericText (Number : String → JSNum) (v : String) : Bool :=
  v == "" || Number v != JSNum.nan

/-- A call on the create form of the deliveries page. -/
inductive Deliveries.FormAction where
  | formChange (value : String)
  | itemChange (name : Deliveries.ItemField) (value : String)
  | addItem
  | removeItem (index : Nat)
  deriving DecidableEq

/-- The state after one call on the create form of the deliveries page. -/
def Deliveries.applyFormAction (Number : String → JSNum) (s : Deliveries.State) :
    Deliveries.FormAction → Deliveries.State
  | .formChange value => Deliveries.handleFormChange s value
  | .itemChange name value => Deliveries.handleItemChange s name value
  | .addItem => Deliveries.addItemToDelivery Number s
  | .removeItem index => Deliveries.removeItemFromDelivery s index

/-- The state after a sequence of calls on the create form of the deliveries page. -/
def Deliveries.runForm (Number : String → JSNum) (s : Deliveries.State)
    (actions : List Deliveries.FormAction) : Deliveries.State :=
  actions.foldl (Deliveries.applyFormAction Number) s

/-- A call on the create form of the transfers page. -/
inductive Transfers.FormAction where
  | formChange (name : Transfers.FormField) (value : String)
  | itemChange (name : Transfers.ItemField) (value : String)
  | addItem
  | removeItem (index : Nat)
  deriving DecidableEq

/-- The state after one call on the create form of the transfers page. -/
def Transfers.applyFormAction (Number : String → JSNum) (s : Transfers.State) :
    Transfers.FormAction → Transfers.State
  | .formChange name value => Transfers.handleFormChange s name value
  | .itemChange name value => Transfers.handleItemChange s name value
  | .addItem => Transfers.addItemToTransfer Number s
  | .removeItem index => Transfers.removeItemFromTransfer s index

/-- The state after a sequence of calls on the create form of the transfers page. -/
def Transfers.runForm (Number : String → JSNum) (s : Transfers.State)
    (actions : List Transfers.FormAction) : Transfers.State :=
  actions.foldl (Transfers.applyFormAction Number) s

/-- What holds of the create form of the deliveries page after every call:
the stocks are the snapshot, every line is within the stock of its pair, and
the quantity input holds a numeric text. -/
def Deliveries.FormOk (Number : String → JSNum) (stocks : List Stock)
    (s : Deliveries.State) : Prop :=
  s.stocks = stocks
  ∧ (∀ item ∈ s.formData.items,
      item.quantity.le
        (JSNum.ofInt (availableFor stocks item.productId item.warehouseId)) = true)
  ∧ numericText Number s.currentItem.quantity = true

/-- A value of one of the two warehouse selects of the transfers page: the
empty text of the placeholder option, or the decimal text of the id of a
listed warehouse. -/
def Transfers.optionValue (warehouses : List Warehouse) (v : String) : Prop :=
  v = "" ∨ ∃ w ∈ warehouses, v = toString w.id

/-- The total quantity the lines of the create form of the deliveries page ask
of one `(product, warehouse)` pair. -/
def Deliveries.requestedFor (items : List Deliveries.FormItem)
    (productId warehouseId : JSNum) : JSNum :=
  (items.filter (fun item =>
      item.productId.strictEq productId && item.warehouseId.strictEq warehouseId)).foldl
    (fun total item => total.add item.quantity) (JSNum.fin 0)

/-! ## The product route: `DELETE /api/product` -/

namespace ProductRoute

/-- Modelled from the spec: a row of one of the line tables `receiptItem`,
`deliveryItem` and `transferItem`; the Prisma schema that types them is not in
the sources.  The route reads `productId` only. -/
structure ItemRow where
  id : Nat
  documentId : Nat
  productId : Nat
  quantity : Int
  deriving DecidableEq

/-- Modelled from the spec: a row of one of the document tables `delivery` and
`transfer`; the Prisma schema that types them is not in the sources. -/
structure DocumentRow where
  id : Nat
  status : String
  deriving DecidableEq

/-- The tables behind the Prisma client, as far as the route and the documents
of the spec go. -/
structure Database where
  products : List Product
  stocks : List Stock
  receiptItems : List ItemRow
  deliveryItems : List ItemRow
  transferItems : List ItemRow
  deliveries : List DocumentRow
  transfers : List DocumentRow
  deriving DecidableEq

/-- The answer of the route: `NextResponse.json({ message }, { status })`. -/
structure Response where
  status : Nat
  message : String
  deriving DecidableEq

/-- The five operations of the `prisma.$transaction([...])` of `DELETE`, run in
order on the tables: four `deleteMany({ where: { productId } })`, which remove
the rows of the product, and `product.delete({ where: { id: productId } })`,
which removes the product row and raises when there is none.  The transaction
applies all of them or none: the result is `none` when `product.delete` finds
no row, or when the database rejects the transaction for a reason of its own
(`accepts` false). -/
def deleteTransaction (db : Database) (productId : JSNum) (accepts : Bool) :
    Option Database :=
  let stocks := db.stocks.filter (fun r => !(JSNum.ofNat r.productId).strictEq productId)
  let receiptItems :=
    db.receiptItems.filter (fun r => !(JSNum.ofNat r.productId).strictEq productId)
  let deliveryItems :=
    db.deliveryItems.filter (fun r => !(JSNum.ofNat r.productId).strictEq productId)
  let transferItems :=
    db.transferItems.filter (fun r => !(JSNum.ofNat r.productId).strictEq productId)
  if accepts && db.products.any (fun r => (JSNum.ofNat r.id).strictEq productId) then
    some { db with
      stocks := stocks
      receiptItems := receiptItems
      deliveryItems := deliveryItems
      transferItems := transferItems
      products := db.products.filter (fun r => !(JSNum.ofNat r.id).strictEq productId) }
  else none

/-- The handler `DELETE`.  `id` is `searchParams.get("id")` (`none` for
`null`); `errorMessage` is the message of the error the transaction raises
when it fails.  The result is the database after the request and the answer. -/
def DELETE (Number : String → JSNum) (db : Database) (id : Option String)
    (accepts : Bool) (errorMessage : String) : Database × Response :=
  match id with
  | none => (db, { status := 400, message := "Product ID is required" })
  | some id =>
    if id = "" then (db, { status := 400, message := "Product ID is required" })
    else
      let productId := Number id
      match deleteTransaction db productId accepts with
      | some db' => (db', { status := 200, message := "Product deleted successfully" })
      | none =>
        (db, { status := 500,
               message := if errorMessage = "" then "Something went wrong" else errorMessage })

end ProductRoute

/-! ## The movement engine of the spec -/

deriving instance DecidableEq for Except

namespace Engine

/-- Modelled from the spec: the typed errors of the engine (spec, section 7).
The server routes `api/delivery` and `api/transfer` that implement the engine
are not in the sources. -/
inductive EngineError where
  | validation
  | notFound
  | invalidQuantity
  | insufficientStock
  | alreadyFinalized
  deriving DecidableEq

/-- Modelled from the spec: `getQuantity(productId, warehouseId)` of the Stock
Ledger (section 4.1), missing from the sources; a missing entry gives 0. -/
def getQuantity (ledger : List Stock) (productId warehouseId : Nat) : Int :=
  match ledger.find? (fun e => e.productId = productId ∧ e.warehouseId = warehouseId) with
  | some entry => entry.quantity
  | none => 0

/-- Modelled from the spec: the write of the Stock Ledger, missing from the
sources: the entry of the pair gets the quantity, and is created when absent. -/
def setQuantity : List Stock → Nat → Nat → Int → List Stock
  | [], productId, warehouseId, quantity =>
    [{ productId := productId, warehouseId := warehouseId, quantity := quantity }]
  | entry :: rest, productId, warehouseId, quantity =>
    if entry.productId = productId ∧ entry.warehouseId = warehouseId then
      { entry with quantity := quantity } :: rest
    else entry :: setQuantity rest productId warehouseId quantity

/-- Modelled from the spec: `applyDelta(productId, warehouseId, delta)` of the
Stock Ledger (section 4.1), missing from the sources: adds `delta` to the
entry, and fails with `InsufficientStockError` if the result would be negative. -/
def applyDelta (ledger : List Stock) (productId warehouseId : Nat) (delta : Int) :
    Except EngineError (List Stock) :=
  if getQuantity ledger productId warehouseId + delta < 0 then
    .error .insufficientStock
  else .ok (setQuantity ledger productId warehouseId
    (getQuantity ledger productId warehouseId + delta))

/-- Modelled from the spec: `availableToMove` of the Availability Calculator
(section 4.2), missing from the sources: the current `getQuantity`. -/
def availableToMove (ledger : List Stock) (productId warehouseId : Nat) : Int :=
  getQuantity ledger productId warehouseId

/-- Modelled from the spec: the status of a movement document (section 3). -/
inductive Status where
  | draft
  | finalized
  deriving DecidableEq

/-- Modelled from the spec: the kind of a movement document with its metadata
(section 3): the customer of a delivery, the two warehouses of a transfer. -/
inductive Metadata where
  | delivery (customer : String)
  | transfer (sourceWarehouseId destinationWarehouseId : Nat)
  deriving DecidableEq

/-- Modelled from the spec: a movement line (section 3). -/
structure Line where
  productId : Nat
  requestedQuantity : Int
  sourceWarehouseId : Nat
  actualQuantity : Option Int
  deriving DecidableEq

/-- Modelled from the spec: a movement document (section 3). -/
structure Document where
  id : Nat
  metadata : Metadata
  status : Status
  lines : List Line
  deriving DecidableEq

/-- Modelled from the spec: a line of a create request.  For a transfer the
source warehouse of the line is the one of the document. -/
structure LineRequest where
  productId : Nat
  requestedQuantity : Int
  warehouseId : Nat
  deriving DecidableEq

/-- Modelled from the spec: the state of the engine, the Stock Ledger and the
Document Store (section 2). -/
structure State where
  ledger : List Stock
  documents : List Document
  deriving DecidableEq

/-- Modelled from the spec: the source warehouse of a line of a new document. -/
def sourceOf (metadata : Metadata) (line : LineRequest) : Nat :=
  match metadata with
  | .delivery _ => line.warehouseId
  | .transfer sourceWarehouseId _ => sourceWarehouseId

/-- Modelled from the spec: the constraints of `Create` on the document
(section 4.3): a delivery has a customer and a line, a transfer has two
different warehouses, a line, and no product twice. -/
def validDocument (metadata : Metadata) (lines : List LineRequest) : Bool :=
  match metadata with
  | .delivery customer => customer ≠ "" ∧ lines ≠ []
  | .transfer sourceWarehouseId destinationWarehouseId =>
    sourceWarehouseId ≠ destinationWarehouseId ∧ lines ≠ []
      ∧ (lines.map (fun l => l.productId)).Nodup

/-- Modelled from the spec: `Create(kind, metadata, lines)` (section 4.3),
missing from the sources.  Every requested quantity is positive and at most
what is available at that time; the new document is a draft and the ledger is
not touched. -/
def create (s : State) (metadata : Metadata) (lines : List LineRequest) :
    Except EngineError State :=
  if !validDocument metadata lines then .error .validation
  else if lines.any (fun l => decide (l.requestedQuantity ≤ 0)) then .error .validation
  else if lines.any (fun l =>
      decide (availableToMove s.ledger l.productId (sourceOf metadata l)
        < l.requestedQuantity)) then
    .error .insufficientStock
  else
    .ok { s with documents := s.documents ++
      [{ id := s.documents.length + 1
         metadata := metadata
         status := .draft
         lines := lines.map (fun l =>
           { productId := l.productId, requestedQuantity := l.requestedQuantity,
             sourceWarehouseId := sourceOf metadata l, actualQuantity := none }) }] }

/-- Modelled from the spec: the stock deltas of one line at finalize (section
4.3): the source entry goes down by the actual quantity and, for a transfer,
the destination entry goes up by it. -/
def applyLine (ledger : List Stock) (metadata : Metadata) (line : Line) (actual : Int) :
    Except EngineError (List Stock) :=
  match applyDelta ledger line.productId line.sourceWarehouseId (-actual) with
  | .error e => .error e
  | .ok ledger' =>
    match metadata with
    | .delivery _ => .ok ledger'
    | .transfer _ destinationWarehouseId =>
      applyDelta ledger' line.productId destinationWarehouseId actual

/-- Modelled from the spec: the stock deltas of all lines, in order; the first
failure aborts them all. -/
def applyLines (ledger : List Stock) (metadata : Metadata) :
    List (Line × Int) → Except EngineError (List Stock)
  | [] => .ok ledger
  | (line, actual) :: rest =>
    match applyLine ledger metadata line actual with
    | .error e => .error e
    | .ok ledger' => applyLines ledger' metadata rest

/-- Modelled from the spec: the document after finalize, with the actual
quantity written on every line. -/
def finalized (doc : Document) (actuals : List Int) : Document :=
  { doc with
    status := .finalized
    lines := (doc.lines.zip actuals).map (fun p => { p.1 with actualQuantity := some p.2 }) }

/-- Modelled from the spec: the Document Store write of finalize: the document
of the id is replaced. -/
def replaceDocument (documents : List Document) (doc : Document) : List Document :=
  documents.map (fun d => if d.id = doc.id then doc else d)

/-- Modelled from the spec: `Finalize(documentId, perLineActualQuantity[])`
(section 4.3), missing from the sources.  The document must exist and be a
draft, there is one actual quantity per line, each between 0 and the requested
quantity and at most what is available now; then all deltas are applied, the
actual quantities written and the status set, or nothing changes at all. -/
def finalize (s : State) (documentId : Nat) (actuals : List Int) :
    Except EngineError State :=
  match s.documents.find? (fun d => d.id = documentId) with
  | none => .error .notFound
  | some doc =>
    if doc.status ≠ .draft then .error .alreadyFinalized
    else if actuals.length ≠ doc.lines.length then .error .validation
    else if (doc.lines.zip actuals).any (fun p =>
        decide (p.2 < 0 ∨ p.1.requestedQuantity < p.2)) then
      .error .invalidQuantity
    else if (doc.lines.zip actuals).any (fun p =>
        decide (availableToMove s.ledger p.1.productId p.1.sourceWarehouseId < p.2)) then
      .error .insufficientStock
    else
      match applyLines s.ledger doc.metadata (doc.lines.zip actuals) with
      | .error e => .error e
      | .ok ledger =>
        .ok { ledger := ledger
              documents := replaceDocument s.documents (finalized doc actuals) }

/-- Modelled from the spec: an operation of the engine. -/
inductive Operation where
  | create (metadata : Metadata) (lines : List LineRequest)
  | finalize (documentId : Nat) (actuals : List Int)
  deriving DecidableEq

/-- Modelled from the spec: one operation; the answer is the new state or the
typed error. -/
def perform (s : State) : Operation → Except EngineError State
  | .create metadata lines => create s metadata lines
  | .finalize documentId actuals => finalize s documentId actuals

/-- Modelled from the spec: a sequence of operations; one that fails leaves
the state as it was. -/
def run (s : State) (operations : List Operation) : State :=
  operations.foldl (fun st op =>
    match perform st op with
    | .ok st' => st'
    | .error _ => st) s

end Engine

/-! ## The pages as transition systems -/

/-- A stock row inside a product of the answer of `GET /api/product`. -/
structure ApiStock where
  warehouseId : Nat
  quantity : Int
  deriving DecidableEq

/-- A product of the answer of `GET /api/product`, with its stock rows. -/
structure ApiProduct where
  id : Nat
  name : String
  sku : String
  stocks : List ApiStock
  deriving DecidableEq

/-- The list `fetchStocks` builds from the answer of `GET /api/product`: the
stock rows of every product, in order, each with the id of its product. -/
def flattenStocks (products : List ApiProduct) : List Stock :=
  products.flatMap (fun product =>
    product.stocks.map (fun stock =>
      { productId := product.id, warehouseId := stock.warehouseId,
        quantity := stock.quantity }))

/-- The value sent for a line by the finalize request, said from the recorded
value: 0 when nothing is recorded or the recorded value is `NaN`, else the
recorded value. -/
def recordedOrZero : Option JSNum → JSNum
  | none => JSNum.fin 0
  | some v => if v = JSNum.nan then JSNum.fin 0 else v

/-- What can happen on the deliveries page: an answer to one of its `GET`
requests arrives (`none` when the request failed), or a control is used.
`validate row` is a click on the Validate button of a row of the table. -/
inductive Deliveries.Event where
  | mount
  | deliveriesFetched (result : Option (List Deliveries.Delivery))
  | productsFetched (result : Option (List Product))
  | warehousesFetched (result : Option (List Warehouse))
  | stocksFetched (result : Option (List ApiProduct))
  | openForm
  | cancelForm
  | form (action : Deliveries.FormAction)
  | submit (reply : Reply)
  | submitTimeout
  | validate (row : Nat)
  | typeQuantity (deliveryItemId : Nat) (value : String)
  | submitValidation (reply : Reply)
  | closeModal

/-- The state of the deliveries page after one event.  The Validate button is
rendered only while the table is (`loadingDeliveries` false) and only in a row
whose `status` is `draft`; a click elsewhere is no event and leaves the state
as it is.  The other handlers are run whatever the state, which allows more
than the rendered controls do. -/
def Deliveries.step (Number : String → JSNum) (s : Deliveries.State) :
    Deliveries.Event → Deliveries.State
  | .mount => { s with loadingDeliveries := true }
  | .deliveriesFetched (some deliveries) =>
    { s with deliveries := deliveries, loadingDeliveries := false }
  | .deliveriesFetched none =>
    { s with message := { type := "error", text := "Failed to fetch deliveries" }
             loadingDeliveries := false }
  | .productsFetched (some products) => { s with products := products }
  | .productsFetched none => s
  | .warehousesFetched (some warehouses) => { s with warehouses := warehouses }
  | .warehousesFetched none => s
  | .stocksFetched (some products) => { s with stocks := flattenStocks products }
  | .stocksFetched none => s
  | .openForm => { s with showForm := true }
  | .cancelForm =>
    { s with showForm := false
             formData := { customer := "", items := [] }
             currentItem := { productId := "", quantity := "", warehouseId := "" }
             message := { type := "", text := "" } }
  | .form action => Deliveries.applyFormAction Number s action
  | .submit reply => (Deliveries.handleSubmit s reply).1
  | .submitTimeout => (Deliveries.handleSubmitTimeout s).1
  | .validate row =>
    if s.loadingDeliveries then s
    else match s.deliveries.get? row with
      | some delivery =>
        if delivery.status = "draft" then Deliveries.handleValidateDelivery s delivery else s
      | none => s
  | .typeQuantity deliveryItemId value =>
    Deliveries.handleValidationChange Number s deliveryItemId value
  | .submitValidation reply => (Deliveries.submitValidation s reply).1
  | .closeModal =>
    { s with showDetailsModal := false, selectedDelivery := none, validationData := [] }

/-- The requests the deliveries page issues at one event. -/
def Deliveries.requestsOf (s : Deliveries.State) : Deliveries.Event → List Deliveries.Request
  | .mount => [Deliveries.Request.getDeliveries, Deliveries.Request.getProducts,
      Deliveries.Request.getWarehouses, Deliveries.Request.getStocks]
  | .submit reply => (Deliveries.handleSubmit s reply).2
  | .submitTimeout => (Deliveries.handleSubmitTimeout s).2
  | .submitValidation reply => (Deliveries.submitValidation s reply).2
  | _ => []

/-- The state of the deliveries page after a sequence of events. -/
def Deliveries.run (Number : String → JSNum) (s : Deliveries.State)
    (events : List Deliveries.Event) : Deliveries.State :=
  events.foldl (Deliveries.step Number) s

/-- What can happen on the transfers page: an answer to one of its `GET`
requests arrives (`none` when the request failed), or a control is used.
`complete row` is a click on the Complete button of a row of the table. -/
inductive Transfers.Event where
  | mount
  | transfersFetched (result : Option (List Transfers.Transfer))
  | productsFetched (result : Option (List Product))
  | warehousesFetched (result : Option (List Warehouse))
  | stocksFetched (result : Option (List ApiProduct))
  | openForm
  | cancelForm
  | form (action : Transfers.FormAction)
  | submit (reply : Reply)
  | submitTimeout
  | complete (row : Nat)
  | typeQuantity (transferItemId : Nat) (value : String)
  | submitCompletion (reply : Reply)
  | closeModal

/-- The state of the transfers page after one event.  The Complete button is
rendered only while the table is (`loadingTransfers` false) and only in a row
whose `status` is `draft`; a click elsewhere is no event and leaves the state
as it is.  The other handlers are run whatever the state, which allows more
than the rendered controls do. -/
def Transfers.step (Number : String → JSNum) (s : Transfers.State) :
    Transfers.Event → Transfers.State
  | .mount => { s with loadingTransfers := true }
  | .transfersFetched (some transfers) =>
    { s with transfers := transfers, loadingTransfers := false }
  | .transfersFetched none =>
    { s with message := { type := "error", text := "Failed to fetch transfers" }
             loadingTransfers := false }
  | .productsFetched (some products) => { s with products := products }
  | .productsFetched none => s
  | .warehousesFetched (some warehouses) => { s with warehouses := warehouses }
  | .warehousesFetched none => s
  | .stocksFetched (some products) => { s with stocks := flattenStocks products }
  | .stocksFetched none => s
  | .openForm => { s with showForm := true }
  | .cancelForm =>
    { s with showForm := false
             formData := { fromWarehouseId := "", toWarehouseId := "", items := [] }
             currentItem := { productId := "", quantity := "" }
             message := { type := "", text := "" } }
  | .form action => Transfers.applyFormAction Number s action
  | .submit reply => (Transfers.handleSubmit Number s reply).1
  | .submitTimeout => (Transfers.handleSubmitTimeout s).1
  | .complete row =>
    if s.loadingTransfers then s
    else match s.transfers.get? row with
      | some transfer =>
        if transfer.status = "draft" then Transfers.handleCompleteTransfer s transfer else s
      | none => s
  | .typeQuantity transferItemId value =>
    Transfers.handleValidationChange Number s transferItemId value
  | .submitCompletion reply => (Transfers.submitCompletion s reply).1
  | .closeModal =>
    { s with showDetailsModal := false, selectedTransfer := none, validationData := [] }

/-- The requests the transfers page issues at one event. -/
def Transfers.requestsOf (Number : String → JSNum) (s : Transfers.State) :
    Transfers.Event → List Transfers.Request
  | .mount => [Transfers.Request.getTransfers, Transfers.Request.getProducts,
      Transfers.Request.getWarehouses, Transfers.Request.getStocks]
  | .submit reply => (Transfers.handleSubmit Number s reply).2
  | .submitTimeout => (Transfers.handleSubmitTimeout s).2
  | .submitCompletion reply => (Transfers.submitCompletion s reply).2
  | _ => []

/-- The state of the transfers page after a sequence of events. -/
def Transfers.run (Number : String → JSNum) (s : Transfers.State)
    (events : List Transfers.Event) : Transfers.State :=
  events.foldl (Transfers.step Number) s

/-! ## Concrete documents and states -/

/-- The scenario of the spec: 50 units of product 1 in warehouse 10 and no
document. -/
def Engine.fiftyInStock : Engine.State where
  ledger := [{ productId := 1, warehouseId := 10, quantity := 50 }]
  documents := []

/-- The scenario of the spec after `Create Transfer(from=10, to=20,
lines=[{product=1, qty=30}])`. -/
def Engine.transferDrafted : Engine.State :=
  Engine.run Engine.fiftyInStock [.create (.transfer 10 20)
    [{ productId := 1, requestedQuantity := 30, warehouseId := 10 }]]

/-- A database with two products, each with stock and with lines in every
line table, and one delivery and one transfer. -/
def ProductRoute.twoProducts : ProductRoute.Database where
  products := [{ id := 1, name := "Widget", sku := "W-1" },
    { id := 2, name := "Gadget", sku := "G-2" }]
  stocks := [{ productId := 1, warehouseId := 10, quantity := 50 },
    { productId := 2, warehouseId := 10, quantity := 8 }]
  receiptItems := [{ id := 1, documentId := 4, productId := 1, quantity := 50 }]
  deliveryItems := [{ id := 1, documentId := 7, productId := 1, quantity := 40 },
    { id := 2, documentId := 7, productId := 2, quantity := 3 }]
  transferItems := [{ id := 1, documentId := 9, productId := 2, quantity := 5 }]
  deliveries := [{ id := 7, status := "draft" }]
  transfers := [{ id := 9, status := "draft" }]

/-- The transfers page with 50 units of product 1 in warehouse 1, 10 units in
warehouse 2 and none in warehouse 3, the form empty. -/
def Transfers.twoSources : Transfers.State :=
  { Transfers.State.init with
    products := [{ id := 1, name := "Widget", sku := "W-1" }]
    warehouses := [{ id := 1, name := "North" }, { id := 2, name := "South" },
      { id := 3, name := "East" }]
    stocks := [{ productId := 1, warehouseId := 1, quantity := 50 },
      { productId := 1, warehouseId := 2, quantity := 10 }]
    showForm := true }

/-- The deliveries page with 50 units of product 1 in warehouse 10, the form
empty. -/
def Deliveries.stockOf50 : Deliveries.State :=
  { Deliveries.State.init with
    products := [{ id := 1, name := "Widget", sku := "W-1" }]
    warehouses := [{ id := 10, name := "Main" }]
    stocks := [{ productId := 1, warehouseId := 10, quantity := 50 }]
    showForm := true }

/-- The create form of `stockOf50` with product 1 and warehouse 10 selected
and the given text in the quantity input. -/
def Deliveries.entering (quantity : String) : Deliveries.State :=
  Deliveries.runForm parseNumber Deliveries.stockOf50
    [.formChange "ACME", .itemChange .productId "1", .itemChange .warehouseId "10",
     .itemChange .quantity quantity]

/-- The create form of `twoSources` with source warehouse 1, destination
warehouse 3 and product 1 selected, and the given text in the quantity input. -/
def Transfers.entering (quantity : String) : Transfers.State :=
  Transfers.runForm parseNumber Transfers.twoSources
    [.formChange .fromWarehouseId "1", .formChange .toWarehouseId "3",
     .itemChange .productId "1", .itemChange .quantity quantity]

/-- A draft delivery of 40 units of product 1 out of warehouse 10. -/
def Deliveries.draftOf40 : Deliveries.Delivery where
  id := 7
  customer := "ACME"
  status := "draft"
  items := [{ id := 1, productId := 1, warehouseId := 10, quantity := 40 }]

/-- The deliveries page showing `draftOf40` while warehouse 10 holds 30 units
of product 1. -/
def Deliveries.stockOf30 : Deliveries.State :=
  { Deliveries.State.init with
    stocks := [{ productId := 1, warehouseId := 10, quantity := 30 }]
    deliveries := [Deliveries.draftOf40] }

/-- A draft transfer of 40 units of product 1 from warehouse 10 to warehouse 20. -/
def Transfers.draftOf40 : Transfers.Transfer where
  id := 9
  fromWarehouseId := 10
  toWarehouseId := 20
  status := "draft"
  items := [{ id := 1, productId := 1, quantity := 40 }]

/-- The transfers page showing `draftOf40` while warehouse 10 holds 30 units
of product 1. -/
def Transfers.stockOf30 : Transfers.State :=
  { Transfers.State.init with
    stocks := [{ productId := 1, warehouseId := 10, quantity := 30 }]
    transfers := [Transfers.draftOf40] }

/-- The scenario of the spec after the transfer of 30 has been finalized with
actual quantity 30. -/
def Engine.transferFinalized : Engine.State :=
  { ledger := [{ productId := 1, warehouseId := 10, quantity := 20 },
      { productId := 1, warehouseId := 20, quantity := 30 }],
    documents :=
      [{ id := 1
         metadata := .transfer 10 20
         status := .finalized
         lines := [{ productId := 1, requestedQuantity := 30, sourceWarehouseId := 10,
                     actualQuantity := some 30 }] }] }

/-- The deliveries page after it has listed `draftOf40`, the draft has been
opened and 40 typed as the actual quantity of its line. -/
def Deliveries.readyToValidate : Deliveries.State :=
  Deliveries.run parseNumber Deliveries.State.init
    [.mount, .deliveriesFetched (some [Deliveries.draftOf40]), .validate 0,
     .typeQuantity 1 "40"]

/-- The transfers page after it has listed `draftOf40`, the draft has been
opened and 40 typed as the actual quantity of its line. -/
def Transfers.readyToComplete : Transfers.State :=
  Transfers.run parseNumber Transfers.State.init
    [.mount, .transfersFetched (some [Transfers.draftOf40]), .complete 0,
     .typeQuantity 1 "40"]

/-- The deliveries page after this course of events: the list shows the draft
7; a delivery is created; within the second before the form is reset the draft
7 is opened for finalize; the reset then asks for the list again, and the
answer shows document 7 as validated. -/
def Deliveries.refreshedWhileOpen : Deliveries.State :=
  Deliveries.run parseNumber Deliveries.State.init
    [.mount, .deliveriesFetched (some [Deliveries.draftOf40]),
     .stocksFetched (some [{ id := 1, name := "Widget", sku := "W-1",
                             stocks := [{ warehouseId := 10, quantity := 50 }] }]),
     .openForm, .form (.formChange "ACME"), .form (.itemChange .productId "1"),
     .form (.itemChange .warehouseId "10"), .form (.itemChange .quantity "5"),
     .form .addItem, .submit Reply.ok,
     .validate 0,
     .submitTimeout,
     .deliveriesFetched (some [{ Deliveries.draftOf40 with status := "validated" }])]

/-- The transfers page after this course of events: the list shows the draft
9; a transfer is created; within the second before the form is reset the draft
9 is opened for finalize; the reset then asks for the list again, and the
answer shows document 9 as completed. -/
def Transfers.refreshedWhileOpen : Transfers.State :=
  Transfers.run parseNumber Transfers.State.init
    [.mount, .transfersFetched (some [Transfers.draftOf40]),
     .stocksFetched (some [{ id := 1, name := "Widget", sku := "W-1",
                             stocks := [{ warehouseId := 10, quantity := 50 }] }]),
     .openForm, .form (.formChange .fromWarehouseId "10"),
     .form (.formChange .toWarehouseId "20"), .form (.itemChange .productId "1"),
     .form (.itemChange .quantity "5"), .form .addItem, .submit Reply.ok,
     .complete 0,
     .submitTimeout,
     .transfersFetched (some [{ Transfers.draftOf40 with status := "completed" }])]

/-! ## Finalize: what `submitValidation` and `submitCompletion` send -/

/-- C1, as stated, fails: with 30 units in stock, opening the draft of 40,
typing 40 as the actual quantity and submitting sends the finalize request
with actual quantity 40, on the deliveries page and on the transfers page. -/
theorem finalize_sent_above_stock :
    (Deliveries.submitValidation
        (Deliveries.handleValidationChange parseNumber
          (Deliveries.handleValidateDelivery Deliveries.stockOf30 Deliveries.draftOf40) 1 "40")
        Reply.ok).2
      = [Deliveries.Request.validate
          { deliveryId := 7, status := "validated",
            items := [{ deliveryItemId := 1, deliveredQty := JSNum.fin 40 }] },
         Deliveries.Request.getDeliveries, Deliveries.Request.getStocks]
    ∧ availableFor Deliveries.stockOf30.stocks (JSNum.ofNat 1) (JSNum.ofNat 10) = 30
    ∧ (Transfers.submitCompletion
        (Transfers.handleValidationChange parseNumber
          (Transfers.handleCompleteTransfer Transfers.stockOf30 Transfers.draftOf40) 1 "40")
        Reply.ok).2
      = [Transfers.Request.complete
          { transferId := 9, status := "completed",
            items := [{ transferItemId := 1, transferredQty := JSNum.fin 40 }] },
         Transfers.Request.getTransfers, Transfers.Request.getStocks]
    ∧ availableFor Transfers.stockOf30.stocks (JSNum.ofNat 1) (JSNum.ofNat 10) = 30
    ∧ (JSNum.fin 40).le (JSNum.ofInt 30) = false := by
  refine ⟨?_, ?_, ?_, ?_, ?_⟩ <;> decide

theorem JSNum.orZero_eq_recordedOrZero (o : Option JSNum) :
    JSNum.orZero o = recordedOrZero o := by
  cases o with
  | none => rfl
  | some v =>
    cases v with
    | nan => simp [JSNum.orZero, recordedOrZero, JSNum.truthy]
    | fin q =>
      by_cases h0 : q = 0
      · simp [JSNum.orZero, recordedOrZero, JSNum.truthy, h0]
      · simp [JSNum.orZero, recordedOrZero, JSNum.truthy, h0]
    | posInf => simp [JSNum.orZero, recordedOrZero, JSNum.truthy]
    | negInf => simp [JSNum.orZero, recordedOrZero, JSNum.truthy]

theorem finalize_request_shape_delivery (s : Deliveries.State) (d : Deliveries.Delivery)
    (reply : Reply) (hd : s.selectedDelivery = some d) :
    (Deliveries.submitValidation s reply).2.head?
      = some (Deliveries.Request.validate
          { deliveryId := d.id, status := "validated",
            items := Deliveries.validationItems d s.validationData }) := by
  cases reply <;> simp [Deliveries.submitValidation, hd]

theorem finalize_request_shape_transfer (t : Transfers.State) (tr : Transfers.Transfer)
    (reply : Reply) (ht : t.selectedTransfer = some tr) :
    (Transfers.submitCompletion t reply).2.head?
      = some (Transfers.Request.complete
          { transferId := tr.id, status := "completed",
            items := Transfers.completionItems tr t.validationData }) := by
  cases reply <;> simp [Transfers.submitCompletion, ht]

/-- C1, amended: the two submit handlers make no stock check.  Whenever a
document is selected they issue the finalize request for it, with one line per
line of the document, in line order, carrying the line's id and the value
recorded for the line (0 when nothing is recorded or the recorded value is
`NaN`); the requests do not depend on `stocks`; when the server answers with
an error, only `message` changes. -/
theorem finalize_sent_whatever_the_stock
    (s : Deliveries.State) (d : Deliveries.Delivery) (t : Transfers.State)
    (tr : Transfers.Transfer) (reply : Reply)
    (hd : s.selectedDelivery = some d) (ht : t.selectedTransfer = some tr) :
    (Deliveries.submitValidation s reply).2.head?
        = some (Deliveries.Request.validate
            { deliveryId := d.id, status := "validated",
              items := d.items.map (fun item =>
                { deliveryItemId := item.id,
                  deliveredQty := recordedOrZero (lookupQty s.validationData item.id) }) })
    ∧ (∀ stocks, (Deliveries.submitValidation { s with stocks := stocks } reply).2
        = (Deliveries.submitValidation s reply).2)
    ∧ (∀ m, (Deliveries.submitValidation s (Reply.error m)).1
        = { s with message :=
            { type := "error", text := errorText m "Failed to validate delivery" } })
    ∧ (Transfers.submitCompletion t reply).2.head?
        = some (Transfers.Request.complete
            { transferId := tr.id, status := "completed",
              items := tr.items.map (fun item =>
                { transferItemId := item.id,
                  transferredQty := recordedOrZero (lookupQty t.validationData item.id) }) })
    ∧ (∀ stocks, (Transfers.submitCompletion { t with stocks := stocks } reply).2
        = (Transfers.submitCompletion t reply).2)
    ∧ (∀ m, (Transfers.submitCompletion t (Reply.error m)).1
        = { t with message :=
            { type := "error", text := errorText m "Failed to complete transfer" } }) := by
  refine ⟨?_, ?_, ?_, ?_, ?_, ?_⟩
  · rw [finalize_request_shape_delivery s d reply hd]
    simp [Deliveries.validationItems, JSNum.orZero_eq_recordedOrZero]
  · intro stocks
    cases reply <;> simp [Deliveries.submitValidation, hd]
  · intro m
    simp [Deliveries.submitValidation, hd]
  · rw [finalize_request_shape_transfer t tr reply ht]
    simp [Transfers.completionItems, JSNum.orZero_eq_recordedOrZero]
  · intro stocks
    cases reply <;> simp [Transfers.submitCompletion, ht]
  · intro m
    simp [Transfers.submitCompletion, ht]

/-- C1, amended, at the stale-stock scenario: stock 30, recorded quantity 40;
the request is sent with 40 and the server's error changes only the message. -/
theorem finalize_sent_whatever_the_stock_witness :
    (Deliveries.submitValidation
        (Deliveries.handleValidationChange parseNumber
          (Deliveries.handleValidateDelivery Deliveries.stockOf30 Deliveries.draftOf40) 1 "40")
        (Reply.error none)).2.head?
      = some (Deliveries.Request.validate
          { deliveryId := 7, status := "validated",
            items := [{ deliveryItemId := 1, deliveredQty := JSNum.fin 40 }] })
    ∧ (Deliveries.submitValidation
        (Deliveries.handleValidationChange parseNumber
          (Deliveries.handleValidateDelivery Deliveries.stockOf30 Deliveries.draftOf40) 1 "40")
        (Reply.error none)).1.stocks
      = [{ productId := 1, warehouseId := 10, quantity := 30 }]
    ∧ (Transfers.submitCompletion
        (Transfers.handleValidationChange parseNumber
          (Transfers.handleCompleteTransfer Transfers.stockOf30 Transfers.draftOf40) 1 "40")
        (Reply.error none)).2.head?
      = some (Transfers.Request.complete
          { transferId := 9, status := "completed",
            items := [{ transferItemId := 1, transferredQty := JSNum.fin 40 }] }) := by
  have h := finalize_sent_whatever_the_stock
    (Deliveries.handleValidationChange parseNumber
      (Deliveries.handleValidateDelivery Deliveries.stockOf30 Deliveries.draftOf40) 1 "40")
    Deliveries.draftOf40
    (Transfers.handleValidationChange parseNumber
      (Transfers.handleCompleteTransfer Transfers.stockOf30 Transfers.draftOf40) 1 "40")
    Transfers.draftOf40 (Reply.error none) (by decide) (by decide)
  refine ⟨h.1.trans (by decide), ?_, h.2.2.2.1.trans (by decide)⟩
  rw [h.2.2.1 none]
  decide

/-- C2 fails on the code: for the draft line of 40 units, typing 100 as the
actual quantity makes `submitValidation` send `deliveredQty` 100 and
`submitCompletion` send `transferredQty` 100, more than the line's quantity. -/
theorem actual_quantity_above_requested :
    (Deliveries.submitValidation
        (Deliveries.handleValidationChange parseNumber
          (Deliveries.handleValidateDelivery Deliveries.stockOf30 Deliveries.draftOf40) 1 "100")
        Reply.ok).2.head?
      = some (Deliveries.Request.validate
          { deliveryId := 7, status := "validated",
            items := [{ deliveryItemId := 1, deliveredQty := JSNum.fin 100 }] })
    ∧ Deliveries.draftOf40.items.map (fun i => (i.id, i.quantity)) = [(1, 40)]
    ∧ (Transfers.submitCompletion
        (Transfers.handleValidationChange parseNumber
          (Transfers.handleCompleteTransfer Transfers.stockOf30 Transfers.draftOf40) 1 "100")
        Reply.ok).2.head?
      = some (Transfers.Request.complete
          { transferId := 9, status := "completed",
            items := [{ transferItemId := 1, transferredQty := JSNum.fin 100 }] })
    ∧ Transfers.draftOf40.items.map (fun i => (i.id, i.quantity)) = [(1, 40)]
    ∧ (JSNum.fin 100).le (JSNum.ofInt 40) = false := by
  refine ⟨?_, ?_, ?_, ?_, ?_⟩ <;> decide

/-! ## Recorded actual quantities are never negative -/

theorem JSNum.max0_nanOrNonneg (x : JSNum) : x.max0.nanOrNonneg = true := by
  cases x <;> simp [JSNum.max0, JSNum.nanOrNonneg, JSNum.le]

theorem JSNum.orZero_nonneg (o : Option JSNum)
    (h : ∀ v, o = some v → v.nanOrNonneg = true) :
    (JSNum.fin 0).le (JSNum.orZero o) = true := by
  cases o with
  | none => simp [JSNum.orZero, JSNum.le]
  | some v =>
    have hv := h v rfl
    cases v with
    | nan => simp [JSNum.orZero, JSNum.truthy, JSNum.le]
    | fin q =>
      have hq : 0 ≤ q := by simpa [JSNum.nanOrNonneg, JSNum.le] using hv
      by_cases h0 : q = 0
      · simp [JSNum.orZero, JSNum.truthy, JSNum.le, h0]
      · simp [JSNum.orZero, JSNum.truthy, JSNum.le, h0, hq]
    | posInf => simp [JSNum.orZero, JSNum.truthy, JSNum.le]
    | negInf => simp [JSNum.nanOrNonneg, JSNum.le] at hv

theorem setQty_values (P : JSNum → Prop) (data : List (Nat × JSNum)) (key : Nat)
    (value : JSNum) (hdata : ∀ p ∈ data, P p.2) (hvalue : P value) :
    ∀ p ∈ setQty data key value, P p.2 := by
  induction data with
  | nil =>
    intro p hp
    simp [setQty] at hp
    subst hp
    exact hvalue
  | cons q rest ih =>
    intro p hp
    simp only [setQty] at hp
    split at hp
    · rcases List.mem_cons.mp hp with h | h
      · subst h
        exact hvalue
      · exact hdata p (List.mem_cons_of_mem _ h)
    · rcases List.mem_cons.mp hp with h | h
      · subst h
        exact hdata _ (List.mem_cons_self _ _)
      · exact ih (fun r hr => hdata r (List.mem_cons_of_mem _ hr)) p h

theorem lookupQty_values (P : JSNum → Prop) (data : List (Nat × JSNum)) (key : Nat)
    (hdata : ∀ p ∈ data, P p.2) : ∀ v, lookupQty data key = some v → P v := by
  intro v hv
  simp only [lookupQty, Option.map_eq_some'] at hv
  obtain ⟨p, hp, rfl⟩ := hv
  exact hdata p (List.mem_of_find?_eq_some hp)

theorem zeros_values (P : JSNum → Prop) (hzero : P (JSNum.fin 0)) (ids : List Nat) :
    ∀ (acc : List (Nat × JSNum)), (∀ p ∈ acc, P p.2) →
      ∀ p ∈ ids.foldl (fun acc id => setQty acc id (JSNum.fin 0)) acc, P p.2 := by
  induction ids with
  | nil => intro acc hacc; simpa using hacc
  | cons id rest ih =>
    intro acc hacc
    simp only [List.foldl_cons]
    exact ih _ (setQty_values P acc id _ hacc hzero)

theorem Deliveries.delivery_typeQuantities_selected (Number : String → JSNum)
    (changes : List (Nat × String)) : ∀ s : Deliveries.State,
      (Deliveries.typeQuantities Number s changes).selectedDelivery = s.selectedDelivery := by
  induction changes with
  | nil => intro s; rfl
  | cons c rest ih =>
    intro s
    simp only [Deliveries.typeQuantities, List.foldl_cons] at ih ⊢
    rw [ih]
    rfl

theorem Deliveries.delivery_typeQuantities_values (Number : String → JSNum)
    (changes : List (Nat × String)) : ∀ s : Deliveries.State,
      (∀ p ∈ s.validationData, p.2.nanOrNonneg = true) →
      ∀ p ∈ (Deliveries.typeQuantities Number s changes).validationData,
        p.2.nanOrNonneg = true := by
  induction changes with
  | nil => intro s hs; simpa [Deliveries.typeQuantities] using hs
  | cons c rest ih =>
    intro s hs
    simp only [Deliveries.typeQuantities, List.foldl_cons] at ih ⊢
    apply ih
    exact setQty_values (fun v => v.nanOrNonneg = true) _ _ _ hs (JSNum.max0_nanOrNonneg _)

theorem Transfers.transfer_typeQuantities_selected (Number : String → JSNum)
    (changes : List (Nat × String)) : ∀ s : Transfers.State,
      (Transfers.typeQuantities Number s changes).selectedTransfer = s.selectedTransfer := by
  induction changes with
  | nil => intro s; rfl
  | cons c rest ih =>
    intro s
    simp only [Transfers.typeQuantities, List.foldl_cons] at ih ⊢
    rw [ih]
    rfl

theorem Transfers.transfer_typeQuantities_values (Number : String → JSNum)
    (changes : List (Nat × String)) : ∀ s : Transfers.State,
      (∀ p ∈ s.validationData, p.2.nanOrNonneg = true) →
      ∀ p ∈ (Transfers.typeQuantities Number s changes).validationData,
        p.2.nanOrNonneg = true := by
  induction changes with
  | nil => intro s hs; simpa [Transfers.typeQuantities] using hs
  | cons c rest ih =>
    intro s hs
    simp only [Transfers.typeQuantities, List.foldl_cons] at ih ⊢
    apply ih
    exact setQty_values (fun v => v.nanOrNonneg = true) _ _ _ hs (JSNum.max0_nanOrNonneg _)

theorem Deliveries.delivery_opened_values (s : Deliveries.State) (d : Deliveries.Delivery) :
    ∀ p ∈ (Deliveries.handleValidateDelivery s d).validationData,
      p.2.nanOrNonneg = true := by
  have h := zeros_values (fun v => v.nanOrNonneg = true) (by decide)
    (d.items.map (fun i => i.id)) [] (by simp)
  simpa [Deliveries.handleValidateDelivery, List.foldl_map] using h

theorem Transfers.transfer_opened_values (s : Transfers.State) (tr : Transfers.Transfer) :
    ∀ p ∈ (Transfers.handleCompleteTransfer s tr).validationData,
      p.2.nanOrNonneg = true := by
  have h := zeros_values (fun v => v.nanOrNonneg = true) (by decide)
    (tr.items.map (fun i => i.id)) [] (by simp)
  simpa [Transfers.handleCompleteTransfer, List.foldl_map] using h

/-- C3: after a document is opened for finalize and any sequence of
`handleValidationChange` calls with arbitrary texts, under any conversion
`Number`, the finalize request is sent and every `deliveredQty`
(`transferredQty` on the transfers page) in it is a number that is at least 0. -/
theorem actual_quantities_nonneg (Number : String → JSNum)
    (s : Deliveries.State) (d : Deliveries.Delivery)
    (t : Transfers.State) (tr : Transfers.Transfer)
    (changes : List (Nat × String)) (reply : Reply) :
    (∃ p, (Deliveries.submitValidation
          (Deliveries.typeQuantities Number (Deliveries.handleValidateDelivery s d) changes)
          reply).2.head? = some (Deliveries.Request.validate p)
        ∧ p.items.map (fun l => l.deliveryItemId) = d.items.map (fun i => i.id)
        ∧ ∀ line ∈ p.items, (JSNum.fin 0).le line.deliveredQty = true)
    ∧ (∃ p, (Transfers.submitCompletion
          (Transfers.typeQuantities Number (Transfers.handleCompleteTransfer t tr) changes)
          reply).2.head? = some (Transfers.Request.complete p)
        ∧ p.items.map (fun l => l.transferItemId) = tr.items.map (fun i => i.id)
        ∧ ∀ line ∈ p.items, (JSNum.fin 0).le line.transferredQty = true) := by
  constructor
  · have hsel := Deliveries.delivery_typeQuantities_selected Number changes
      (Deliveries.handleValidateDelivery s d)
    have hval := Deliveries.delivery_typeQuantities_values Number changes
      (Deliveries.handleValidateDelivery s d) (Deliveries.delivery_opened_values s d)
    have hd : (Deliveries.typeQuantities Number
        (Deliveries.handleValidateDelivery s d) changes).selectedDelivery = some d := by
      rw [hsel]; rfl
    refine ⟨_, (finalize_request_shape_delivery _ d reply hd), ?_, ?_⟩
    · simp [Deliveries.validationItems, List.map_map, Function.comp_def]
    · intro line hline
      simp only [Deliveries.validationItems, List.mem_map] at hline
      obtain ⟨item, _, rfl⟩ := hline
      exact JSNum.orZero_nonneg _
        (lookupQty_values (fun v => v.nanOrNonneg = true) _ _ hval)
  · have hsel := Transfers.transfer_typeQuantities_selected Number changes
      (Transfers.handleCompleteTransfer t tr)
    have hval := Transfers.transfer_typeQuantities_values Number changes
      (Transfers.handleCompleteTransfer t tr) (Transfers.transfer_opened_values t tr)
    have ht : (Transfers.typeQuantities Number
        (Transfers.handleCompleteTransfer t tr) changes).selectedTransfer = some tr := by
      rw [hsel]; rfl
    refine ⟨_, (finalize_request_shape_transfer _ tr reply ht), ?_, ?_⟩
    · simp [Transfers.completionItems, List.map_map, Function.comp_def]
    · intro line hline
      simp only [Transfers.completionItems, List.mem_map] at hline
      obtain ⟨item, _, rfl⟩ := hline
      exact JSNum.orZero_nonneg _
        (lookupQty_values (fun v => v.nanOrNonneg = true) _ _ hval)

/-! ## Create: requested quantities and available stock -/

/-- C4 fails on the code: with 50 units of product 1 in warehouse 1 and 10 in
warehouse 2, a line of 40 is added while the source is warehouse 1, then the
source select is changed to warehouse 2; `handleSubmit` sends the line of 40
with `fromWarehouseId` 2, where only 10 are available. -/
theorem transfer_line_above_stock_after_source_change :
    (Transfers.handleSubmit parseNumber
        (Transfers.runForm parseNumber Transfers.twoSources
          [.formChange .fromWarehouseId "1", .formChange .toWarehouseId "3",
           .itemChange .productId "1", .itemChange .quantity "40", .addItem,
           .formChange .fromWarehouseId "2"])
        Reply.ok).2
      = [Transfers.Request.create
          { fromWarehouseId := JSNum.fin 2, toWarehouseId := JSNum.fin 3,
            items := [{ productId := JSNum.fin 1, quantity := JSNum.fin 40 }] }]
    ∧ availableFor Transfers.twoSources.stocks (JSNum.fin 1) (JSNum.fin 2) = 10
    ∧ (JSNum.fin 40).le (JSNum.ofInt 10) = false := by
  refine ⟨?_, ?_, ?_⟩ <;> decide

theorem JSNum.le_of_not_gt (x : JSNum) (b : Int) (hnan : x ≠ JSNum.nan)
    (hgt : x.gt (JSNum.ofInt b) = false) : x.le (JSNum.ofInt b) = true := by
  cases x with
  | nan => exact absurd rfl hnan
  | fin q => simpa [JSNum.gt, JSNum.le, JSNum.ofInt] using hgt
  | posInf => simp [JSNum.gt, JSNum.ofInt] at hgt
  | negInf => simp [JSNum.le, JSNum.ofInt]

theorem mem_of_mem_removeAt {α : Type} (items : List α) (index : Nat) (x : α)
    (h : x ∈ removeAt items index) : x ∈ items := by
  simp only [removeAt, List.mem_map, List.mem_filter] at h
  obtain ⟨p, ⟨hp, _⟩, rfl⟩ := h
  exact List.snd_mem_of_mem_enumFrom hp

theorem Deliveries.delivery_getAvailableStock_eq (Number : String → JSNum) (s : Deliveries.State)
    (hp : s.currentItem.productId ≠ "") (hw : s.currentItem.warehouseId ≠ "") :
    Deliveries.getAvailableStock Number s
      = availableFor s.stocks (Number s.currentItem.productId)
          (Number s.currentItem.warehouseId) := by
  simp [Deliveries.getAvailableStock, availableFor, hp, hw]

theorem Deliveries.formOk_add (Number : String → JSNum) (stocks : List Stock)
    (s : Deliveries.State) (h : Deliveries.FormOk Number stocks s) :
    Deliveries.FormOk Number stocks (Deliveries.addItemToDelivery Number s) := by
  obtain ⟨hst, hitems, hq⟩ := h
  unfold Deliveries.addItemToDelivery
  split
  · exact ⟨hst, hitems, hq⟩
  · rename_i hset
    simp only [not_or] at hset
    obtain ⟨hp, hqty, hw⟩ := hset
    simp only []
    split
    · exact ⟨hst, hitems, hq⟩
    · rename_i hgt
      refine ⟨hst, ?_, by simp [numericText]⟩
      intro item hitem
      simp only [List.mem_append, List.mem_singleton] at hitem
      rcases hitem with hold | hnew
      · exact hitems item hold
      · subst hnew
        simp only []
        have hnan : Number s.currentItem.quantity ≠ JSNum.nan := by
          simpa [numericText, hqty] using hq
        have := JSNum.le_of_not_gt _ _ hnan (by simpa using hgt)
        rwa [Deliveries.delivery_getAvailableStock_eq Number s hp hw, hst] at this

theorem Deliveries.formOk_step (Number : String → JSNum) (stocks : List Stock)
    (s : Deliveries.State) (a : Deliveries.FormAction)
    (h : Deliveries.FormOk Number stocks s)
    (ha : ∀ v, a = .itemChange .quantity v → numericText Number v = true) :
    Deliveries.FormOk Number stocks (Deliveries.applyFormAction Number s a) := by
  cases a with
  | formChange value => exact h
  | itemChange name value =>
    cases name with
    | productId => exact h
    | quantity => exact ⟨h.1, h.2.1, ha value rfl⟩
    | warehouseId => exact h
  | addItem => exact Deliveries.formOk_add Number stocks s h
  | removeItem index =>
    exact ⟨h.1, fun item hitem => h.2.1 item (mem_of_mem_removeAt _ _ _ hitem), h.2.2⟩

theorem Deliveries.formOk_run (Number : String → JSNum) (stocks : List Stock)
    (actions : List Deliveries.FormAction) : ∀ s : Deliveries.State,
      Deliveries.FormOk Number stocks s →
      (∀ v, Deliveries.FormAction.itemChange .quantity v ∈ actions →
        numericText Number v = true) →
      Deliveries.FormOk Number stocks (Deliveries.runForm Number s actions) := by
  induction actions with
  | nil => intro s h _; exact h
  | cons a rest ih =>
    intro s h ha
    simp only [Deliveries.runForm, List.foldl_cons] at ih ⊢
    apply ih
    · exact Deliveries.formOk_step Number stocks s a h
        (fun v hv => ha v (by simp [hv]))
    · intro v hv
      exact ha v (List.mem_cons_of_mem _ hv)

/-- For quantity texts that are numeric: from an empty form, after any sequence
of calls on the create form of the deliveries page, the stocks are unchanged,
every line of `formData.items` has a quantity that is at most the available
stock of its `(productId, warehouseId)`, and so has every line of a create
payload sent by `handleSubmit`. -/
theorem delivery_lines_within_stock (Number : String → JSNum) (s : Deliveries.State)
    (actions : List Deliveries.FormAction) (reply : Reply)
    (hempty : s.formData.items = [])
    (hcurrent : numericText Number s.currentItem.quantity = true)
    (htyped : ∀ v, Deliveries.FormAction.itemChange .quantity v ∈ actions →
      numericText Number v = true) :
    (Deliveries.runForm Number s actions).stocks = s.stocks
    ∧ (∀ item ∈ (Deliveries.runForm Number s actions).formData.items,
        item.quantity.le
          (JSNum.ofInt (availableFor s.stocks item.productId item.warehouseId)) = true)
    ∧ (∀ p, Deliveries.Request.create p
          ∈ (Deliveries.handleSubmit (Deliveries.runForm Number s actions) reply).2 →
        ∀ line ∈ p.items,
          line.quantity.le
            (JSNum.ofInt (availableFor s.stocks line.productId line.warehouseId)) = true) := by
  have h := Deliveries.formOk_run Number s.stocks actions s
    ⟨rfl, by simp [hempty], hcurrent⟩ htyped
  refine ⟨h.1, h.2.1, ?_⟩
  intro p hp line hline
  have hpay : p = Deliveries.createPayload (Deliveries.runForm Number s actions).formData := by
    unfold Deliveries.handleSubmit at hp
    simp only [] at hp
    split at hp
    · simp at hp
    · cases reply <;> simpa using hp
  subst hpay
  simp only [Deliveries.createPayload, List.mem_map] at hline
  obtain ⟨item, hitem, rfl⟩ := hline
  exact h.2.1 item hitem

/-- The lines stay within the stock at a concrete form: 50 units in stock, one
line of 40 entered. -/
theorem delivery_lines_within_stock_witness :
    (Deliveries.runForm parseNumber Deliveries.stockOf50
        [.itemChange .productId "1", .itemChange .warehouseId "10",
         .itemChange .quantity "40", .addItem]).formData.items.map (fun i => i.quantity)
      = [JSNum.fin 40]
    ∧ ∀ item ∈ (Deliveries.runForm parseNumber Deliveries.stockOf50
        [.itemChange .productId "1", .itemChange .warehouseId "10",
         .itemChange .quantity "40", .addItem]).formData.items,
        item.quantity.le
          (JSNum.ofInt (availableFor Deliveries.stockOf50.stocks
            item.productId item.warehouseId)) = true :=
  ⟨by decide,
   (delivery_lines_within_stock parseNumber Deliveries.stockOf50
      [.itemChange .productId "1", .itemChange .warehouseId "10",
       .itemChange .quantity "40", .addItem] Reply.ok (by decide) (by decide)
      (by
        intro v hv
        simp at hv
        subst hv
        decide)).2.1⟩

/-- C5 fails on the code: with 50 units of product 1 in warehouse 10, product
and warehouse selected and the quantity text `abc`, `addItemToDelivery`
appends a line whose quantity is `NaN`, which is not at most the available
stock, and `handleSubmit` sends that line. -/
theorem delivery_line_nan_quantity_accepted :
    (Deliveries.entering "abc").formData.items = []
    ∧ availableFor (Deliveries.entering "abc").stocks (JSNum.fin 1) (JSNum.fin 10) = 50
    ∧ (Deliveries.addItemToDelivery parseNumber
        (Deliveries.entering "abc")).formData.items.map
          (fun i => (i.productId, i.warehouseId, i.quantity))
      = [(JSNum.fin 1, JSNum.fin 10, JSNum.nan)]
    ∧ (Deliveries.handleSubmit
        (Deliveries.addItemToDelivery parseNumber (Deliveries.entering "abc")) Reply.ok).2
      = [Deliveries.Request.create
          { customer := "ACME",
            items := [{ productId := JSNum.fin 1, quantity := JSNum.nan,
                        warehouseId := JSNum.fin 10 }] }]
    ∧ JSNum.nan.le (JSNum.ofInt 50) = false := by
  refine ⟨?_, ?_, ?_, ?_, ?_⟩ <;> decide

/-- C6: when product, warehouse and quantity are set and `Number(quantity)`
is more than the available stock `N`, `addItemToDelivery` changes nothing but
the message, which becomes the error `Only N units available`; when the list
of lines was empty it stays empty and `handleSubmit` sends no request. -/
theorem delivery_line_above_stock_rejected (Number : String → JSNum)
    (s : Deliveries.State) (reply : Reply)
    (hp : s.currentItem.productId ≠ "") (hq : s.currentItem.quantity ≠ "")
    (hw : s.currentItem.warehouseId ≠ "")
    (hgt : (Number s.currentItem.quantity).gt
      (JSNum.ofInt (Deliveries.getAvailableStock Number s)) = true) :
    Deliveries.addItemToDelivery Number s
      = { s with message :=
          { type := "error",
            text := "Only " ++ toString (Deliveries.getAvailableStock Number s)
              ++ " units available" } }
    ∧ (Deliveries.addItemToDelivery Number s).formData.items = s.formData.items
    ∧ (s.formData.items = [] →
        (Deliveries.handleSubmit (Deliveries.addItemToDelivery Number s) reply).2 = []) := by
  have hadd : Deliveries.addItemToDelivery Number s
      = { s with message :=
          { type := "error",
            text := "Only " ++ toString (Deliveries.getAvailableStock Number s)
              ++ " units available" } } := by
    simp [Deliveries.addItemToDelivery, hp, hq, hw, hgt]
  refine ⟨hadd, by rw [hadd], ?_⟩
  intro hempty
  rw [hadd]
  simp [Deliveries.handleSubmit, hempty]

/-- C6 at the scenario of the spec: stock 50, customer ACME, one line of 60
entered. -/
theorem delivery_line_above_stock_rejected_witness :
    Deliveries.getAvailableStock parseNumber (Deliveries.entering "60") = 50
    ∧ (Deliveries.addItemToDelivery parseNumber (Deliveries.entering "60")).message
      = { type := "error", text := "Only 50 units available" }
    ∧ (Deliveries.addItemToDelivery parseNumber (Deliveries.entering "60")).formData.items = []
    ∧ (Deliveries.handleSubmit
        (Deliveries.addItemToDelivery parseNumber (Deliveries.entering "60")) Reply.ok).2 = [] := by
  have h := delivery_line_above_stock_rejected parseNumber (Deliveries.entering "60")
    Reply.ok (by decide) (by decide) (by decide) (by decide)
  refine ⟨by decide, ?_, h.2.1.trans (by decide), h.2.2 (by decide)⟩
  rw [h.1]
  decide

/-- C7 fails on the code: with product and warehouses selected and 50 units
available, the quantity texts `0`, `-5` and `2.5` are each accepted by
`addItemToDelivery`, and `0` by `addItemToTransfer`; the line appended carries
that quantity, which is not a positive integer. -/
theorem line_quantity_not_positive_integer :
    (Deliveries.addItemToDelivery parseNumber
        (Deliveries.entering "0")).formData.items.map (fun i => i.quantity) = [JSNum.fin 0]
    ∧ (Deliveries.addItemToDelivery parseNumber
        (Deliveries.entering "-5")).formData.items.map (fun i => i.quantity) = [JSNum.fin (-5)]
    ∧ (Deliveries.addItemToDelivery parseNumber
        (Deliveries.entering "2.5")).formData.items.map (fun i => i.quantity)
        = [JSNum.fin (mkRat 5 2)]
    ∧ (Transfers.addItemToTransfer parseNumber
        (Transfers.entering "0")).formData.items.map (fun i => i.quantity) = [JSNum.fin 0]
    ∧ (Deliveries.entering "0").formData.items = []
    ∧ (Transfers.entering "0").formData.items = []
    ∧ (JSNum.fin 0).isPositiveInteger = false
    ∧ (JSNum.fin (-5)).isPositiveInteger = false
    ∧ (JSNum.fin (mkRat 5 2)).isPositiveInteger = false := by
  refine ⟨?_, ?_, ?_, ?_, ?_, ?_, ?_, ?_, ?_⟩ <;> decide

/-! ## Create: duplicate lines and the two warehouses of a transfer -/

/-- C8, as stated, fails: with 50 units available, product 1 is added twice
(5 units, then 7); both calls append a line, and `handleSubmit` sends the two
lines of product 1. -/
theorem transfer_duplicate_product_lines :
    (Transfers.runForm parseNumber Transfers.twoSources
        [.formChange .fromWarehouseId "1", .formChange .toWarehouseId "3",
         .itemChange .productId "1", .itemChange .quantity "5", .addItem,
         .itemChange .productId "1", .itemChange .quantity "7",
         .addItem]).formData.items.map (fun i => (i.productId, i.quantity))
      = [(JSNum.fin 1, JSNum.fin 5), (JSNum.fin 1, JSNum.fin 7)]
    ∧ (Transfers.handleSubmit parseNumber
        (Transfers.runForm parseNumber Transfers.twoSources
          [.formChange .fromWarehouseId "1", .formChange .toWarehouseId "3",
           .itemChange .productId "1", .itemChange .quantity "5", .addItem,
           .itemChange .productId "1", .itemChange .quantity "7", .addItem])
        Reply.ok).2
      = [Transfers.Request.create
          { fromWarehouseId := JSNum.fin 1, toWarehouseId := JSNum.fin 3,
            items := [{ productId := JSNum.fin 1, quantity := JSNum.fin 5 },
              { productId := JSNum.fin 1, quantity := JSNum.fin 7 }] }] := by
  refine ⟨?_, ?_⟩ <;> decide

theorem Transfers.transfer_handleSubmit_requests (Number : String → JSNum) (s : Transfers.State)
    (reply : Reply) :
    (Transfers.handleSubmit Number s reply).2 = []
    ∨ (Transfers.handleSubmit Number s reply).2
        = [Transfers.Request.create (Transfers.createPayload Number s.formData)] := by
  unfold Transfers.handleSubmit
  simp only []
  split
  · exact Or.inl rfl
  · split
    · exact Or.inl rfl
    · cases reply <;> exact Or.inr rfl

/-- C8, amended: `addItemToTransfer` does not look at the lines already in the
list.  A call that passes the product and quantity guard, the warehouses guard
and the stock guard appends one line of the entered product after the existing
lines, whatever they are; the payload of `handleSubmit` has one line per line
of `formData.items`, in order, with the same product ids. -/
theorem transfer_add_appends_line (Number : String → JSNum) (s : Transfers.State)
    (reply : Reply)
    (hp : s.currentItem.productId ≠ "") (hq : s.currentItem.quantity ≠ "")
    (hfrom : s.formData.fromWarehouseId ≠ "") (hto : s.formData.toWarehouseId ≠ "")
    (hstock : (Number s.currentItem.quantity).gt
      (JSNum.ofInt (Transfers.getAvailableStock Number s)) = false) :
    (∃ line : Transfers.FormItem,
        line.productId = Number s.currentItem.productId
        ∧ line.quantity = Number s.currentItem.quantity
        ∧ (Transfers.addItemToTransfer Number s).formData.items
            = s.formData.items ++ [line])
    ∧ (∀ p, Transfers.Request.create p
          ∈ (Transfers.handleSubmit Number (Transfers.addItemToTransfer Number s) reply).2 →
        p.items.map (fun l => l.productId)
          = s.formData.items.map (fun i => i.productId)
              ++ [Number s.currentItem.productId]) := by
  have hadd : (Transfers.addItemToTransfer Number s).formData.items
      = s.formData.items ++
        [{ productId := Number s.currentItem.productId
           productName := (s.products.find? (fun p =>
             (JSNum.ofNat p.id).strictEq (Number s.currentItem.productId))).map
               (fun p => p.name)
           productSku := (s.products.find? (fun p =>
             (JSNum.ofNat p.id).strictEq (Number s.currentItem.productId))).map
               (fun p => p.sku)
           quantity := Number s.currentItem.quantity }] := by
    simp [Transfers.addItemToTransfer, hp, hq, hfrom, hto, hstock]
  refine ⟨⟨_, rfl, rfl, hadd⟩, ?_⟩
  intro p hmem
  rcases Transfers.transfer_handleSubmit_requests Number (Transfers.addItemToTransfer Number s) reply
    with h | h
  · rw [h] at hmem
    simp at hmem
  · rw [h] at hmem
    simp only [List.mem_singleton, Transfers.Request.create.injEq] at hmem
    subst hmem
    simp [Transfers.createPayload, hadd, List.map_map, Function.comp_def]

/-- C8, amended, at a form that already holds a line of product 1. -/
theorem transfer_add_appends_line_witness :
    (Transfers.runForm parseNumber Transfers.twoSources
        [.formChange .fromWarehouseId "1", .formChange .toWarehouseId "3",
         .itemChange .productId "1", .itemChange .quantity "5", .addItem,
         .itemChange .productId "1",
         .itemChange .quantity "7"]).formData.items.map (fun i => i.productId)
      = [JSNum.fin 1]
    ∧ ∃ line : Transfers.FormItem,
        line.productId = JSNum.fin 1
        ∧ (Transfers.addItemToTransfer parseNumber
            (Transfers.runForm parseNumber Transfers.twoSources
              [.formChange .fromWarehouseId "1", .formChange .toWarehouseId "3",
               .itemChange .productId "1", .itemChange .quantity "5", .addItem,
               .itemChange .productId "1", .itemChange .quantity "7"])).formData.items
          = (Transfers.runForm parseNumber Transfers.twoSources
              [.formChange .fromWarehouseId "1", .formChange .toWarehouseId "3",
               .itemChange .productId "1", .itemChange .quantity "5", .addItem,
               .itemChange .productId "1", .itemChange .quantity "7"]).formData.items
            ++ [line] := by
  obtain ⟨line, hid, _, hitems⟩ :=
    (transfer_add_appends_line parseNumber
      (Transfers.runForm parseNumber Transfers.twoSources
        [.formChange .fromWarehouseId "1", .formChange .toWarehouseId "3",
         .itemChange .productId "1", .itemChange .quantity "5", .addItem,
         .itemChange .productId "1", .itemChange .quantity "7"])
      Reply.ok (by decide) (by decide) (by decide) (by decide) (by decide)).1
  exact ⟨by decide, line, hid.trans (by decide), hitems⟩

/-- C9, as stated, fails twice.  With warehouse 1 selected as source and as
destination and no line added, `handleSubmit` sends nothing but the error is
`Please fill warehouses and add items`.  And with the source text `1`, the
destination text `01` and one line, the two texts differ, so the request is
sent, with `fromWarehouseId` and `toWarehouseId` both the number 1. -/
theorem transfer_same_warehouse_other_error :
    (Transfers.runForm parseNumber Transfers.twoSources
        [.formChange .fromWarehouseId "1", .formChange .toWarehouseId "1"]).formData
      = { fromWarehouseId := "1", toWarehouseId := "1", items := [] }
    ∧ (Transfers.handleSubmit parseNumber
        (Transfers.runForm parseNumber Transfers.twoSources
          [.formChange .fromWarehouseId "1", .formChange .toWarehouseId "1"])
        Reply.ok).2 = []
    ∧ (Transfers.handleSubmit parseNumber
        (Transfers.runForm parseNumber Transfers.twoSources
          [.formChange .fromWarehouseId "1", .formChange .toWarehouseId "1"])
        Reply.ok).1.message
      = { type := "error", text := "Please fill warehouses and add items" }
    ∧ (Transfers.handleSubmit parseNumber
        (Transfers.runForm parseNumber Transfers.twoSources
          [.formChange .fromWarehouseId "1", .formChange .toWarehouseId "01",
           .itemChange .productId "1", .itemChange .quantity "5", .addItem])
        Reply.ok).2
      = [Transfers.Request.create
          { fromWarehouseId := JSNum.fin 1, toWarehouseId := JSNum.fin 1,
            items := [{ productId := JSNum.fin 1, quantity := JSNum.fin 5 }] }] := by
  refine ⟨?_, ?_, ?_, ?_⟩ <;> decide

theorem toDigitsCore_ne_nil (base : Nat) :
    ∀ (fuel n : Nat) (ds : List Char), ds ≠ [] → Nat.toDigitsCore base fuel n ds ≠ [] := by
  intro fuel
  induction fuel with
  | zero => intro n ds h; simpa [Nat.toDigitsCore] using h
  | succ fuel ih =>
    intro n ds _
    simp only [Nat.toDigitsCore]
    split
    · simp
    · exact ih _ _ (by simp)

theorem toString_nat_ne_empty (n : Nat) : toString n ≠ "" := by
  have h : Nat.toDigits 10 n ≠ [] := by
    simp only [Nat.toDigits, Nat.toDigitsCore]
    split
    · simp
    · exact toDigitsCore_ne_nil 10 _ _ _ (by simp)
  intro hempty
  apply h
  have : (toString n).data = ("" : String).data := by rw [hempty]
  simpa [toString, Nat.repr, List.asString] using this

/-- C9, amended: when the two warehouse fields hold values of the selects'
options and `Number` reads the text of a listed id back as that id, every
create payload sent by `handleSubmit` has `fromWarehouseId` different from
`toWarehouseId`; when both fields hold the same warehouse, nothing is sent and
the error is `Source and destination must be different` if the form has a
line, `Please fill warehouses and add items` if it has none. -/
theorem transfer_warehouses_differ (Number : String → JSNum) (s : Transfers.State)
    (reply : Reply)
    (hread : ∀ w ∈ s.warehouses, Number (toString w.id) = JSNum.ofNat w.id)
    (hfrom : Transfers.optionValue s.warehouses s.formData.fromWarehouseId)
    (hto : Transfers.optionValue s.warehouses s.formData.toWarehouseId) :
    (∀ p, Transfers.Request.create p ∈ (Transfers.handleSubmit Number s reply).2 →
        p.fromWarehouseId ≠ p.toWarehouseId
        ∧ p.fromWarehouseId.strictEq p.toWarehouseId = false)
    ∧ (∀ w ∈ s.warehouses, s.formData.fromWarehouseId = toString w.id →
        s.formData.toWarehouseId = toString w.id →
        (Transfers.handleSubmit Number s reply).2 = []
        ∧ (Transfers.handleSubmit Number s reply).1.formData = s.formData
        ∧ (Transfers.handleSubmit Number s reply).1.message
            = { type := "error",
                text := if s.formData.items.length = 0
                  then "Please fill warehouses and add items"
                  else "Source and destination must be different" }) := by
  constructor
  · intro p hmem
    unfold Transfers.handleSubmit at hmem
    simp only [] at hmem
    split at hmem
    · simp at hmem
    · rename_i hfilled
      simp only [not_or] at hfilled
      split at hmem
      · simp at hmem
      · rename_i hne
        have hp : p = Transfers.createPayload Number s.formData := by
          cases reply <;> simpa using hmem
        rcases hfrom with hf | ⟨wf, hwf, hf⟩
        · exact absurd hf hfilled.1
        rcases hto with ht | ⟨wt, hwt, ht⟩
        · exact absurd ht hfilled.2.1
        have hid : wf.id ≠ wt.id := by
          intro h
          apply hne
          rw [hf, ht, h]
        have hnum : (JSNum.fin (wf.id : ℚ)) ≠ JSNum.fin (wt.id : ℚ) := by
          intro h
          apply hid
          exact_mod_cast JSNum.fin.inj h
        subst hp
        simp only [Transfers.createPayload]
        rw [hf, ht, hread wf hwf, hread wt hwt]
        refine ⟨hnum, ?_⟩
        simpa [JSNum.strictEq, JSNum.ofNat] using hid
  · intro w _ hf ht
    have hfne : s.formData.fromWarehouseId ≠ "" := hf ▸ toString_nat_ne_empty w.id
    have htne : s.formData.toWarehouseId ≠ "" := ht ▸ toString_nat_ne_empty w.id
    have hsame : s.formData.fromWarehouseId = s.formData.toWarehouseId := by rw [hf, ht]
    by_cases hlen : s.formData.items.length = 0
    · simp [Transfers.handleSubmit, hlen]
    · have hitems : s.formData.items ≠ [] := by
        intro h
        apply hlen
        rw [h]
        rfl
      simp [Transfers.handleSubmit, hfne, htne, hitems, hsame]

/-- C9, amended, at a form with source warehouse 1, destination warehouse 3
and one line: the payload sent has 1 and 3 as its two warehouses. -/
theorem transfer_warehouses_differ_witness :
    (Transfers.handleSubmit parseNumber
        (Transfers.addItemToTransfer parseNumber (Transfers.entering "5")) Reply.ok).2
      = [Transfers.Request.create
          { fromWarehouseId := JSNum.fin 1, toWarehouseId := JSNum.fin 3,
            items := [{ productId := JSNum.fin 1, quantity := JSNum.fin 5 }] }]
    ∧ ∀ p, Transfers.Request.create p
          ∈ (Transfers.handleSubmit parseNumber
              (Transfers.addItemToTransfer parseNumber (Transfers.entering "5")) Reply.ok).2 →
        p.fromWarehouseId ≠ p.toWarehouseId
        ∧ p.fromWarehouseId.strictEq p.toWarehouseId = false :=
  ⟨by decide,
   (transfer_warehouses_differ parseNumber
      (Transfers.addItemToTransfer parseNumber (Transfers.entering "5")) Reply.ok
      (by decide)
      (Or.inr ⟨{ id := 1, name := "North" }, by decide, by decide⟩)
      (Or.inr ⟨{ id := 3, name := "East" }, by decide, by decide⟩)).1⟩

/-- C10: `handleSubmit` on the deliveries page sends the create request, with
the payload built from `formData`, exactly when the customer is non-empty and
`formData.items` has at least one line; otherwise it sends nothing, leaves
`formData` (and all but the message) unchanged and sets the error
`Please fill customer name and add items`. -/
theorem delivery_submit_iff (s : Deliveries.State) (reply : Reply) :
    ((∃ p, Deliveries.Request.create p ∈ (Deliveries.handleSubmit s reply).2)
        ↔ (s.formData.customer ≠ "" ∧ 1 ≤ s.formData.items.length))
    ∧ ((s.formData.customer ≠ "" ∧ 1 ≤ s.formData.items.length) →
        (Deliveries.handleSubmit s reply).2
          = [Deliveries.Request.create (Deliveries.createPayload s.formData)])
    ∧ (¬ (s.formData.customer ≠ "" ∧ 1 ≤ s.formData.items.length) →
        (Deliveries.handleSubmit s reply).2 = []
        ∧ (Deliveries.handleSubmit s reply).1.formData = s.formData
        ∧ (Deliveries.handleSubmit s reply).1
            = { s with message :=
                { type := "error", text := "Please fill customer name and add items" } }) := by
  by_cases hc : s.formData.customer = ""
  · simp [Deliveries.handleSubmit, hc]
  · by_cases hi : s.formData.items = []
    · simp [Deliveries.handleSubmit, hc, hi]
    · have hlen : 1 ≤ s.formData.items.length := by
        cases hitems : s.formData.items with
        | nil => exact absurd hitems hi
        | cons a rest => simp
      cases reply <;> simp [Deliveries.handleSubmit, hc, hi, hlen]

/-! ## Create: the guards of the transfer form -/

/-- C11: when `formData.items` is empty, or the source or the destination
warehouse is not selected, `handleSubmit` on the transfers page sends no
request, leaves `formData` (and all but the message) unchanged and sets the
error `Please fill warehouses and add items`. -/
theorem transfer_submit_needs_lines (Number : String → JSNum) (s : Transfers.State)
    (reply : Reply)
    (h : s.formData.items = [] ∨ s.formData.fromWarehouseId = ""
      ∨ s.formData.toWarehouseId = "") :
    (Transfers.handleSubmit Number s reply).2 = []
    ∧ (Transfers.handleSubmit Number s reply).1.formData = s.formData
    ∧ (Transfers.handleSubmit Number s reply).1
        = { s with message :=
            { type := "error", text := "Please fill warehouses and add items" } } := by
  have hguard : s.formData.fromWarehouseId = "" ∨ s.formData.toWarehouseId = ""
      ∨ s.formData.items.length = 0 := by
    rcases h with h | h | h
    · exact Or.inr (Or.inr (by rw [h]; rfl))
    · exact Or.inl h
    · exact Or.inr (Or.inl h)
  have hrun : Transfers.handleSubmit Number s reply
      = ({ s with message :=
            { type := "error", text := "Please fill warehouses and add items" } }, []) := by
    unfold Transfers.handleSubmit
    simp only []
    rw [if_pos hguard]
  rw [hrun]
  exact ⟨rfl, rfl, rfl⟩

/-- C11 at a form with both warehouses selected and no line. -/
theorem transfer_submit_needs_lines_witness :
    (Transfers.entering "5").formData
      = { fromWarehouseId := "1", toWarehouseId := "3", items := [] }
    ∧ (Transfers.handleSubmit parseNumber (Transfers.entering "5") Reply.ok).2 = []
    ∧ (Transfers.handleSubmit parseNumber (Transfers.entering "5") Reply.ok).1.message
      = { type := "error", text := "Please fill warehouses and add items" } := by
  have h := transfer_submit_needs_lines parseNumber (Transfers.entering "5") Reply.ok
    (Or.inl (by decide))
  refine ⟨by decide, h.1, ?_⟩
  rw [h.2.2]

/-! ## Finalize: one line of the request per line of the document -/

/-- C15, as stated, fails: typing the text `abc` on line 1 records `NaN` for
it, and the finalize request then carries 0 for the line, not the recorded
value; on the deliveries page and on the transfers page. -/
theorem recorded_nan_sent_as_zero :
    lookupQty
        (Deliveries.handleValidationChange parseNumber
          (Deliveries.handleValidateDelivery Deliveries.stockOf30 Deliveries.draftOf40)
          1 "abc").validationData 1
      = some JSNum.nan
    ∧ (Deliveries.submitValidation
        (Deliveries.handleValidationChange parseNumber
          (Deliveries.handleValidateDelivery Deliveries.stockOf30 Deliveries.draftOf40)
          1 "abc")
        Reply.ok).2.head?
      = some (Deliveries.Request.validate
          { deliveryId := 7, status := "validated",
            items := [{ deliveryItemId := 1, deliveredQty := JSNum.fin 0 }] })
    ∧ lookupQty
        (Transfers.handleValidationChange parseNumber
          (Transfers.handleCompleteTransfer Transfers.stockOf30 Transfers.draftOf40)
          1 "abc").validationData 1
      = some JSNum.nan
    ∧ (Transfers.submitCompletion
        (Transfers.handleValidationChange parseNumber
          (Transfers.handleCompleteTransfer Transfers.stockOf30 Transfers.draftOf40)
          1 "abc")
        Reply.ok).2.head?
      = some (Transfers.Request.complete
          { transferId := 9, status := "completed",
            items := [{ transferItemId := 1, transferredQty := JSNum.fin 0 }] }) := by
  refine ⟨?_, ?_, ?_, ?_⟩ <;> decide

/-- C15, amended: for every selected document the finalize request has exactly
one entry per line of the document, in line order, with that line's id and the
value recorded for the line, where 0 is sent when nothing is recorded or when
the recorded value is `NaN`; on the deliveries page and on the transfers page. -/
theorem finalize_lines_follow_document
    (s : Deliveries.State) (d : Deliveries.Delivery) (t : Transfers.State)
    (tr : Transfers.Transfer) (reply : Reply)
    (hd : s.selectedDelivery = some d) (ht : t.selectedTransfer = some tr) :
    (Deliveries.submitValidation s reply).2.head?
        = some (Deliveries.Request.validate
            { deliveryId := d.id, status := "validated",
              items := d.items.map (fun item =>
                { deliveryItemId := item.id,
                  deliveredQty := recordedOrZero (lookupQty s.validationData item.id) }) })
    ∧ (Transfers.submitCompletion t reply).2.head?
        = some (Transfers.Request.complete
            { transferId := tr.id, status := "completed",
              items := tr.items.map (fun item =>
                { transferItemId := item.id,
                  transferredQty := recordedOrZero (lookupQty t.validationData item.id) }) }) := by
  constructor
  · rw [finalize_request_shape_delivery s d reply hd]
    simp [Deliveries.validationItems, JSNum.orZero_eq_recordedOrZero]
  · rw [finalize_request_shape_transfer t tr reply ht]
    simp [Transfers.completionItems, JSNum.orZero_eq_recordedOrZero]

/-- C15, amended, at the draft of one line with 25 typed as its actual
quantity. -/
theorem finalize_lines_follow_document_witness :
    (Deliveries.submitValidation
        (Deliveries.handleValidationChange parseNumber
          (Deliveries.handleValidateDelivery Deliveries.stockOf30 Deliveries.draftOf40)
          1 "25")
        Reply.ok).2.head?
      = some (Deliveries.Request.validate
          { deliveryId := 7, status := "validated",
            items := [{ deliveryItemId := 1, deliveredQty := JSNum.fin 25 }] })
    ∧ (Transfers.submitCompletion
        (Transfers.handleValidationChange parseNumber
          (Transfers.handleCompleteTransfer Transfers.stockOf30 Transfers.draftOf40)
          1 "25")
        Reply.ok).2.head?
      = some (Transfers.Request.complete
          { transferId := 9, status := "completed",
            items := [{ transferItemId := 1, transferredQty := JSNum.fin 25 }] }) := by
  have h := finalize_lines_follow_document
    (Deliveries.handleValidationChange parseNumber
      (Deliveries.handleValidateDelivery Deliveries.stockOf30 Deliveries.draftOf40) 1 "25")
    Deliveries.draftOf40
    (Transfers.handleValidationChange parseNumber
      (Transfers.handleCompleteTransfer Transfers.stockOf30 Transfers.draftOf40) 1 "25")
    Transfers.draftOf40 Reply.ok (by decide) (by decide)
  exact ⟨h.1.trans (by decide), h.2.trans (by decide)⟩

/-! ## Available stock -/

theorem JSNum.strictEq_ofNat (n : Nat) (x : JSNum) :
    (JSNum.ofNat n).strictEq x = true ↔ x = JSNum.ofNat n := by
  cases x <;> simp [JSNum.strictEq, JSNum.ofNat, eq_comm]

theorem availableFor_none (stocks : List Stock) (p w : JSNum)
    (h : ∀ st ∈ stocks, ¬ (p = JSNum.ofNat st.productId ∧ w = JSNum.ofNat st.warehouseId)) :
    availableFor stocks p w = 0 := by
  have hfind : stocks.find? (fun st =>
      (JSNum.ofNat st.productId).strictEq p && (JSNum.ofNat st.warehouseId).strictEq w)
      = none := by
    rw [List.find?_eq_none]
    intro st hst
    have := h st hst
    simpa [JSNum.strictEq_ofNat] using this
  simp [availableFor, hfind]

theorem availableFor_first (before after : List Stock) (entry : Stock) (p w : JSNum)
    (hentry : p = JSNum.ofNat entry.productId ∧ w = JSNum.ofNat entry.warehouseId)
    (hbefore : ∀ st ∈ before,
      ¬ (p = JSNum.ofNat st.productId ∧ w = JSNum.ofNat st.warehouseId)) :
    availableFor (before ++ entry :: after) p w = entry.quantity := by
  induction before with
  | nil =>
    simp [availableFor, List.find?_cons, JSNum.strictEq_ofNat, hentry.1, hentry.2]
  | cons st rest ih =>
    have hst := hbefore st (List.mem_cons_self _ _)
    have hrest := ih (fun x hx => hbefore x (List.mem_cons_of_mem _ hx))
    have hno : ((JSNum.ofNat st.productId).strictEq p
        && (JSNum.ofNat st.warehouseId).strictEq w) = false := by
      apply Bool.eq_false_iff.mpr
      intro h
      simp only [Bool.and_eq_true, JSNum.strictEq_ofNat] at h
      exact hst h
    simp only [availableFor, List.cons_append, List.find?_cons, hno] at hrest ⊢
    exact hrest

theorem Transfers.transfer_getAvailableStock_eq (Number : String → JSNum) (s : Transfers.State)
    (hp : s.currentItem.productId ≠ "") (hw : s.formData.fromWarehouseId ≠ "") :
    Transfers.getAvailableStock Number s
      = availableFor s.stocks (Number s.currentItem.productId)
          (Number s.formData.fromWarehouseId) := by
  simp [Transfers.getAvailableStock, availableFor, hp, hw]

/-- C17: on both pages `getAvailableStock` returns 0 when the product or the
warehouse is not selected, and when no row of `stocks` is a row of the
selected product and warehouse. -/
theorem available_stock_zero_when_missing (Number : String → JSNum)
    (d : Deliveries.State) (t : Transfers.State) :
    ((d.currentItem.productId = "" ∨ d.currentItem.warehouseId = "") →
        Deliveries.getAvailableStock Number d = 0)
    ∧ ((∀ st ∈ d.stocks,
          ¬ (Number d.currentItem.productId = JSNum.ofNat st.productId
            ∧ Number d.currentItem.warehouseId = JSNum.ofNat st.warehouseId)) →
        Deliveries.getAvailableStock Number d = 0)
    ∧ ((t.currentItem.productId = "" ∨ t.formData.fromWarehouseId = "") →
        Transfers.getAvailableStock Number t = 0)
    ∧ ((∀ st ∈ t.stocks,
          ¬ (Number t.currentItem.productId = JSNum.ofNat st.productId
            ∧ Number t.formData.fromWarehouseId = JSNum.ofNat st.warehouseId)) →
        Transfers.getAvailableStock Number t = 0) := by
  refine ⟨?_, ?_, ?_, ?_⟩
  · intro h
    simp [Deliveries.getAvailableStock, h]
  · intro h
    by_cases hsel : d.currentItem.productId = "" ∨ d.currentItem.warehouseId = ""
    · simp [Deliveries.getAvailableStock, hsel]
    · simp only [not_or] at hsel
      rw [Deliveries.delivery_getAvailableStock_eq Number d hsel.1 hsel.2]
      exact availableFor_none _ _ _ h
  · intro h
    simp [Transfers.getAvailableStock, h]
  · intro h
    by_cases hsel : t.currentItem.productId = "" ∨ t.formData.fromWarehouseId = ""
    · simp [Transfers.getAvailableStock, hsel]
    · simp only [not_or] at hsel
      rw [Transfers.transfer_getAvailableStock_eq Number t hsel.1 hsel.2]
      exact availableFor_none _ _ _ h

/-- C18: on both pages, when product and warehouse are selected and `stocks`
has a row of the selected pair, `getAvailableStock` returns the quantity of
the first such row, whatever lines the form already holds and whatever
documents the page lists. -/
theorem available_stock_is_first_entry (Number : String → JSNum)
    (d : Deliveries.State) (dBefore dAfter : List Stock) (dEntry : Stock)
    (t : Transfers.State) (tBefore tAfter : List Stock) (tEntry : Stock)
    (hdp : d.currentItem.productId ≠ "") (hdw : d.currentItem.warehouseId ≠ "")
    (hdStocks : d.stocks = dBefore ++ dEntry :: dAfter)
    (hdEntry : Number d.currentItem.productId = JSNum.ofNat dEntry.productId
      ∧ Number d.currentItem.warehouseId = JSNum.ofNat dEntry.warehouseId)
    (hdBefore : ∀ st ∈ dBefore,
      ¬ (Number d.currentItem.productId = JSNum.ofNat st.productId
        ∧ Number d.currentItem.warehouseId = JSNum.ofNat st.warehouseId))
    (htp : t.currentItem.productId ≠ "") (htw : t.formData.fromWarehouseId ≠ "")
    (htStocks : t.stocks = tBefore ++ tEntry :: tAfter)
    (htEntry : Number t.currentItem.productId = JSNum.ofNat tEntry.productId
      ∧ Number t.formData.fromWarehouseId = JSNum.ofNat tEntry.warehouseId)
    (htBefore : ∀ st ∈ tBefore,
      ¬ (Number t.currentItem.productId = JSNum.ofNat st.productId
        ∧ Number t.formData.fromWarehouseId = JSNum.ofNat st.warehouseId)) :
    Deliveries.getAvailableStock Number d = dEntry.quantity
    ∧ (∀ items deliveries,
        Deliveries.getAvailableStock Number
          { d with formData := { d.formData with items := items }, deliveries := deliveries }
          = dEntry.quantity)
    ∧ Transfers.getAvailableStock Number t = tEntry.quantity
    ∧ (∀ items transfers,
        Transfers.getAvailableStock Number
          { t with formData := { t.formData with items := items }, transfers := transfers }
          = tEntry.quantity) := by
  have hdq : Deliveries.getAvailableStock Number d = dEntry.quantity := by
    rw [Deliveries.delivery_getAvailableStock_eq Number d hdp hdw, hdStocks]
    exact availableFor_first _ _ _ _ _ hdEntry hdBefore
  have htq : Transfers.getAvailableStock Number t = tEntry.quantity := by
    rw [Transfers.transfer_getAvailableStock_eq Number t htp htw, htStocks]
    exact availableFor_first _ _ _ _ _ htEntry htBefore
  refine ⟨hdq, ?_, htq, ?_⟩
  · intro items deliveries
    rw [← hdq]
    rfl
  · intro items transfers
    rw [← htq]
    rfl

/-- C18 at concrete forms: product 1 out of warehouse 10 (50 units) on the
deliveries page, product 1 out of warehouse 2 (10 units, the second row) on
the transfers page. -/
theorem available_stock_is_first_entry_witness :
    Deliveries.getAvailableStock parseNumber (Deliveries.entering "5") = 50
    ∧ Transfers.getAvailableStock parseNumber
        (Transfers.runForm parseNumber Transfers.twoSources
          [.formChange .fromWarehouseId "2", .itemChange .productId "1"]) = 10 := by
  have h := available_stock_is_first_entry parseNumber
    (Deliveries.entering "5") [] [] { productId := 1, warehouseId := 10, quantity := 50 }
    (Transfers.runForm parseNumber Transfers.twoSources
      [.formChange .fromWarehouseId "2", .itemChange .productId "1"])
    [{ productId := 1, warehouseId := 1, quantity := 50 }] []
    { productId := 1, warehouseId := 2, quantity := 10 }
    (by decide) (by decide) (by decide) (by decide) (by decide)
    (by decide) (by decide) (by decide) (by decide) (by decide)
  exact ⟨h.1, h.2.2.1⟩

/-! ## Create leaves the stocks alone -/

/-- C19: on both pages, adding a line, removing a line, `handleSubmit` (for
either answer of the server) and the reset that follows a successful create
leave the `stocks` state exactly as it was, and none of them asks for the
stocks again. -/
theorem create_leaves_stocks (Number : String → JSNum) (d : Deliveries.State)
    (t : Transfers.State) (index : Nat) (reply : Reply) :
    (Deliveries.addItemToDelivery Number d).stocks = d.stocks
    ∧ (Deliveries.removeItemFromDelivery d index).stocks = d.stocks
    ∧ (Deliveries.handleSubmit d reply).1.stocks = d.stocks
    ∧ (Deliveries.handleSubmitTimeout d).1.stocks = d.stocks
    ∧ Deliveries.Request.getStocks ∉ (Deliveries.handleSubmit d reply).2
    ∧ Deliveries.Request.getStocks ∉ (Deliveries.handleSubmitTimeout d).2
    ∧ (Transfers.addItemToTransfer Number t).stocks = t.stocks
    ∧ (Transfers.removeItemFromTransfer t index).stocks = t.stocks
    ∧ (Transfers.handleSubmit Number t reply).1.stocks = t.stocks
    ∧ (Transfers.handleSubmitTimeout t).1.stocks = t.stocks
    ∧ Transfers.Request.getStocks ∉ (Transfers.handleSubmit Number t reply).2
    ∧ Transfers.Request.getStocks ∉ (Transfers.handleSubmitTimeout t).2 := by
  refine ⟨?_, rfl, ?_, rfl, ?_, ?_, ?_, rfl, ?_, rfl, ?_, ?_⟩
  · unfold Deliveries.addItemToDelivery
    split
    · rfl
    · simp only []
      split <;> rfl
  · unfold Deliveries.handleSubmit
    simp only []
    split
    · rfl
    · cases reply <;> rfl
  · unfold Deliveries.handleSubmit
    simp only []
    split
    · simp
    · cases reply <;> simp
  · simp [Deliveries.handleSubmitTimeout]
  · unfold Transfers.addItemToTransfer
    split
    · rfl
    · split
      · rfl
      · simp only []
        split <;> rfl
  · unfold Transfers.handleSubmit
    simp only []
    split
    · rfl
    · split
      · rfl
      · cases reply <;> rfl
  · rcases Transfers.transfer_handleSubmit_requests Number t reply with h | h <;> simp [h]
  · simp [Transfers.handleSubmitTimeout]

/-! ## Finalize is requested for draft documents only -/

theorem Deliveries.delivery_handleSubmit_requests (s : Deliveries.State) (reply : Reply) :
    (Deliveries.handleSubmit s reply).2 = []
    ∨ (Deliveries.handleSubmit s reply).2
        = [Deliveries.Request.create (Deliveries.createPayload s.formData)] := by
  unfold Deliveries.handleSubmit
  simp only []
  split
  · exact Or.inl rfl
  · cases reply <;> exact Or.inr rfl

theorem Deliveries.delivery_handleSubmit_selected (s : Deliveries.State) (reply : Reply) :
    (Deliveries.handleSubmit s reply).1.selectedDelivery = s.selectedDelivery := by
  unfold Deliveries.handleSubmit
  simp only []
  split
  · rfl
  · cases reply <;> rfl

theorem Deliveries.delivery_applyFormAction_selected (Number : String → JSNum)
    (s : Deliveries.State) (a : Deliveries.FormAction) :
    (Deliveries.applyFormAction Number s a).selectedDelivery = s.selectedDelivery := by
  cases a with
  | formChange value => rfl
  | itemChange name value => cases name <;> rfl
  | addItem =>
    simp only [Deliveries.applyFormAction]
    unfold Deliveries.addItemToDelivery
    split
    · rfl
    · simp only []
      split <;> rfl
  | removeItem index => rfl

theorem Transfers.transfer_handleSubmit_selected (Number : String → JSNum) (s : Transfers.State)
    (reply : Reply) :
    (Transfers.handleSubmit Number s reply).1.selectedTransfer = s.selectedTransfer := by
  unfold Transfers.handleSubmit
  simp only []
  split
  · rfl
  · split
    · rfl
    · cases reply <;> rfl

theorem Transfers.transfer_applyFormAction_selected (Number : String → JSNum)
    (s : Transfers.State) (a : Transfers.FormAction) :
    (Transfers.applyFormAction Number s a).selectedTransfer = s.selectedTransfer := by
  cases a with
  | formChange name value => cases name <;> rfl
  | itemChange name value => cases name <;> rfl
  | addItem =>
    simp only [Transfers.applyFormAction]
    unfold Transfers.addItemToTransfer
    split
    · rfl
    · split
      · rfl
      · simp only []
        split <;> rfl
  | removeItem index => rfl

theorem Deliveries.delivery_step_selected_draft (Number : String → JSNum) (s : Deliveries.State)
    (e : Deliveries.Event)
    (h : ∀ d, s.selectedDelivery = some d → d.status = "draft") :
    ∀ d, (Deliveries.step Number s e).selectedDelivery = some d → d.status = "draft" := by
  intro d hd
  cases e with
  | mount => exact h d hd
  | deliveriesFetched result => cases result <;> exact h d hd
  | productsFetched result => cases result <;> exact h d hd
  | warehousesFetched result => cases result <;> exact h d hd
  | stocksFetched result => cases result <;> exact h d hd
  | openForm => exact h d hd
  | cancelForm => exact h d hd
  | form action =>
    simp only [Deliveries.step, Deliveries.delivery_applyFormAction_selected] at hd
    exact h d hd
  | submit reply =>
    simp only [Deliveries.step, Deliveries.delivery_handleSubmit_selected] at hd
    exact h d hd
  | submitTimeout => exact h d hd
  | validate row =>
    simp only [Deliveries.step] at hd
    split at hd
    · exact h d hd
    · split at hd
      · split at hd
        · rename_i hdraft
          simp only [Deliveries.handleValidateDelivery, Option.some.injEq] at hd
          rw [← hd]
          exact hdraft
        · exact h d hd
      · exact h d hd
  | typeQuantity deliveryItemId value => exact h d hd
  | submitValidation reply =>
    simp only [Deliveries.step, Deliveries.submitValidation] at hd
    split at hd
    · rename_i hnone
      rw [hnone] at hd
      exact absurd hd (by simp)
    · rename_i selected hsel
      cases reply with
      | ok => simp at hd
      | error m => exact h d hd
  | closeModal => simp [Deliveries.step] at hd

theorem Deliveries.delivery_run_selected_draft (Number : String → JSNum)
    (events : List Deliveries.Event) : ∀ s : Deliveries.State,
      (∀ d, s.selectedDelivery = some d → d.status = "draft") →
      ∀ d, (Deliveries.run Number s events).selectedDelivery = some d →
        d.status = "draft" := by
  induction events with
  | nil => intro s h; exact h
  | cons e rest ih =>
    intro s h
    simp only [Deliveries.run, List.foldl_cons] at ih ⊢
    exact ih _ (Deliveries.delivery_step_selected_draft Number s e h)

theorem Transfers.transfer_step_selected_draft (Number : String → JSNum) (s : Transfers.State)
    (e : Transfers.Event)
    (h : ∀ d, s.selectedTransfer = some d → d.status = "draft") :
    ∀ d, (Transfers.step Number s e).selectedTransfer = some d → d.status = "draft" := by
  intro d hd
  cases e with
  | mount => exact h d hd
  | transfersFetched result => cases result <;> exact h d hd
  | productsFetched result => cases result <;> exact h d hd
  | warehousesFetched result => cases result <;> exact h d hd
  | stocksFetched result => cases result <;> exact h d hd
  | openForm => exact h d hd
  | cancelForm => exact h d hd
  | form action =>
    simp only [Transfers.step, Transfers.transfer_applyFormAction_selected] at hd
    exact h d hd
  | submit reply =>
    simp only [Transfers.step, Transfers.transfer_handleSubmit_selected] at hd
    exact h d hd
  | submitTimeout => exact h d hd
  | complete row =>
    simp only [Transfers.step] at hd
    split at hd
    · exact h d hd
    · split at hd
      · split at hd
        · rename_i hdraft
          simp only [Transfers.handleCompleteTransfer, Option.some.injEq] at hd
          rw [← hd]
          exact hdraft
        · exact h d hd
      · exact h d hd
  | typeQuantity transferItemId value => exact h d hd
  | submitCompletion reply =>
    simp only [Transfers.step, Transfers.submitCompletion] at hd
    split at hd
    · rename_i hnone
      rw [hnone] at hd
      exact absurd hd (by simp)
    · rename_i selected hsel
      cases reply with
      | ok => simp at hd
      | error m => exact h d hd
  | closeModal => simp [Transfers.step] at hd

theorem Transfers.transfer_run_selected_draft (Number : String → JSNum)
    (events : List Transfers.Event) : ∀ s : Transfers.State,
      (∀ d, s.selectedTransfer = some d → d.status = "draft") →
      ∀ d, (Transfers.run Number s events).selectedTransfer = some d →
        d.status = "draft" := by
  induction events with
  | nil => intro s h; exact h
  | cons e rest ih =>
    intro s h
    simp only [Transfers.run, List.foldl_cons] at ih ⊢
    exact ih _ (Transfers.transfer_step_selected_draft Number s e h)

theorem Deliveries.validate_request_selected (s : Deliveries.State) (e : Deliveries.Event)
    (p : Deliveries.ValidatePayload)
    (hp : Deliveries.Request.validate p ∈ Deliveries.requestsOf s e) :
    ∃ d, s.selectedDelivery = some d ∧ p.deliveryId = d.id := by
  cases e with
  | submit reply =>
    simp only [Deliveries.requestsOf] at hp
    rcases Deliveries.delivery_handleSubmit_requests s reply with h | h <;> simp [h] at hp
  | submitValidation reply =>
    simp only [Deliveries.requestsOf, Deliveries.submitValidation] at hp
    split at hp
    · simp at hp
    · rename_i selected hsel
      refine ⟨selected, hsel, ?_⟩
      cases reply <;> simp at hp <;> rw [hp]
  | _ => simp [Deliveries.requestsOf, Deliveries.handleSubmitTimeout] at hp

theorem Transfers.complete_request_selected (Number : String → JSNum) (s : Transfers.State)
    (e : Transfers.Event) (p : Transfers.CompletePayload)
    (hp : Transfers.Request.complete p ∈ Transfers.requestsOf Number s e) :
    ∃ d, s.selectedTransfer = some d ∧ p.transferId = d.id := by
  cases e with
  | submit reply =>
    simp only [Transfers.requestsOf] at hp
    rcases Transfers.transfer_handleSubmit_requests Number s reply with h | h <;> simp [h] at hp
  | submitCompletion reply =>
    simp only [Transfers.requestsOf, Transfers.submitCompletion] at hp
    split at hp
    · simp at hp
    · rename_i selected hsel
      refine ⟨selected, hsel, ?_⟩
      cases reply <;> simp at hp <;> rw [hp]
  | _ => simp [Transfers.requestsOf, Transfers.handleSubmitTimeout] at hp

/-- C16, as stated, fails: a delivery is created, the listed draft 7 is opened
for finalize before the form is reset, and the list asked for by the reset
shows document 7 as validated; the held copy still says `draft`, the create
request had been sent, and the finalize request for document 7 is sent.  The
same on the transfers page with document 9 and `completed`. -/
theorem finalize_sent_for_document_listed_validated :
    Deliveries.refreshedWhileOpen.deliveries.map (fun d => (d.id, d.status))
      = [(7, "validated")]
    ∧ Deliveries.refreshedWhileOpen.selectedDelivery.map (fun d => (d.id, d.status))
      = some (7, "draft")
    ∧ (Deliveries.requestsOf Deliveries.refreshedWhileOpen
        (.submitValidation Reply.ok)).head?
      = some (Deliveries.Request.validate
          { deliveryId := 7, status := "validated",
            items := [{ deliveryItemId := 1, deliveredQty := JSNum.fin 0 }] })
    ∧ Transfers.refreshedWhileOpen.transfers.map (fun d => (d.id, d.status))
      = [(9, "completed")]
    ∧ Transfers.refreshedWhileOpen.selectedTransfer.map (fun d => (d.id, d.status))
      = some (9, "draft")
    ∧ (Transfers.requestsOf parseNumber Transfers.refreshedWhileOpen
        (.submitCompletion Reply.ok)).head?
      = some (Transfers.Request.complete
          { transferId := 9, status := "completed",
            items := [{ transferItemId := 1, transferredQty := JSNum.fin 0 }] }) := by
  refine ⟨?_, ?_, ?_, ?_, ?_, ?_⟩ <;> decide

/-- C16, amended: in every state either page reaches from its initial state,
the copy of the document held in `selectedDelivery` (`selectedTransfer`) has
status `draft`, and every finalize request the page issues there is for that
held document; an answer to the request for the list replaces the list and
leaves the held copy as it is.  So no finalize request is sent for a document
whose held copy has status `validated` (`completed`). -/
theorem finalize_only_for_draft (Number : String → JSNum)
    (deliveryEvents : List Deliveries.Event) (transferEvents : List Transfers.Event) :
    (∀ d, (Deliveries.run Number Deliveries.State.init deliveryEvents).selectedDelivery
          = some d → d.status = "draft" ∧ d.status ≠ "validated")
    ∧ (∀ e p, Deliveries.Request.validate p
          ∈ Deliveries.requestsOf
              (Deliveries.run Number Deliveries.State.init deliveryEvents) e →
        ∃ d, (Deliveries.run Number Deliveries.State.init deliveryEvents).selectedDelivery
              = some d
          ∧ p.deliveryId = d.id ∧ d.status = "draft")
    ∧ (∀ (s : Deliveries.State) (deliveries : List Deliveries.Delivery),
        (Deliveries.step Number s (.deliveriesFetched (some deliveries))).selectedDelivery
            = s.selectedDelivery
        ∧ (Deliveries.step Number s (.deliveriesFetched (some deliveries))).deliveries
            = deliveries)
    ∧ (∀ d, (Transfers.run Number Transfers.State.init transferEvents).selectedTransfer
          = some d → d.status = "draft" ∧ d.status ≠ "completed")
    ∧ (∀ e p, Transfers.Request.complete p
          ∈ Transfers.requestsOf Number
              (Transfers.run Number Transfers.State.init transferEvents) e →
        ∃ d, (Transfers.run Number Transfers.State.init transferEvents).selectedTransfer
              = some d
          ∧ p.transferId = d.id ∧ d.status = "draft")
    ∧ (∀ (t : Transfers.State) (transfers : List Transfers.Transfer),
        (Transfers.step Number t (.transfersFetched (some transfers))).selectedTransfer
            = t.selectedTransfer
        ∧ (Transfers.step Number t (.transfersFetched (some transfers))).transfers
            = transfers) := by
  have hD := Deliveries.delivery_run_selected_draft Number deliveryEvents Deliveries.State.init
    (by intro d hd; simp [Deliveries.State.init] at hd)
  have hT := Transfers.transfer_run_selected_draft Number transferEvents Transfers.State.init
    (by intro d hd; simp [Transfers.State.init] at hd)
  refine ⟨?_, ?_, ?_, ?_, ?_, ?_⟩
  · intro d hd
    have := hD d hd
    exact ⟨this, by rw [this]; decide⟩
  · intro e p hp
    obtain ⟨d, hsel, hid⟩ := Deliveries.validate_request_selected _ e p hp
    exact ⟨d, hsel, hid, hD d hsel⟩
  · intro s deliveries
    exact ⟨rfl, rfl⟩
  · intro d hd
    have := hT d hd
    exact ⟨this, by rw [this]; decide⟩
  · intro e p hp
    obtain ⟨d, hsel, hid⟩ := Transfers.complete_request_selected Number _ e p hp
    exact ⟨d, hsel, hid, hT d hsel⟩
  · intro t transfers
    exact ⟨rfl, rfl⟩

/-! ## Deleting a product -/

theorem JSNum.strictEq_ofNat_ofNat (a b : Nat) :
    (JSNum.ofNat a).strictEq (JSNum.ofNat b) = decide (a = b) := by
  simp [JSNum.strictEq, JSNum.ofNat]

theorem ProductRoute.delete_ok (Number : String → JSNum) (db : ProductRoute.Database)
    (text : String) (accepts : Bool) (errorMessage : String)
    (hok : (ProductRoute.DELETE Number db (some text) accepts errorMessage).2.status = 200) :
    ProductRoute.deleteTransaction db (Number text) accepts
      = some (ProductRoute.DELETE Number db (some text) accepts errorMessage).1 := by
  unfold ProductRoute.DELETE at hok ⊢
  simp only [] at hok ⊢
  split at hok
  · simp at hok
  · rename_i htext
    rw [if_neg htext]
    cases htx : ProductRoute.deleteTransaction db (Number text) accepts with
    | none => simp [htx] at hok
    | some db' => rfl

/-- C20: after a `DELETE` that answers 200 for the id text of product `p`, the
product row `p` existed and is gone, no `stock`, `receiptItem`, `deliveryItem`
or `transferItem` row of product `p` remains, and each of these tables holds
exactly its former rows of the other products, in their order. -/
theorem delete_product_cascades (Number : String → JSNum) (db : ProductRoute.Database)
    (text : String) (p : Nat) (accepts : Bool) (errorMessage : String)
    (hid : Number text = JSNum.ofNat p)
    (hok : (ProductRoute.DELETE Number db (some text) accepts errorMessage).2.status = 200) :
    (∃ row ∈ db.products, row.id = p)
    ∧ (∀ row ∈ (ProductRoute.DELETE Number db (some text) accepts errorMessage).1.products,
        row.id ≠ p)
    ∧ (∀ row ∈ (ProductRoute.DELETE Number db (some text) accepts errorMessage).1.stocks,
        row.productId ≠ p)
    ∧ (∀ row ∈ (ProductRoute.DELETE Number db (some text) accepts errorMessage).1.receiptItems,
        row.productId ≠ p)
    ∧ (∀ row ∈ (ProductRoute.DELETE Number db (some text) accepts errorMessage).1.deliveryItems,
        row.productId ≠ p)
    ∧ (∀ row ∈ (ProductRoute.DELETE Number db (some text) accepts errorMessage).1.transferItems,
        row.productId ≠ p)
    ∧ (ProductRoute.DELETE Number db (some text) accepts errorMessage).1.products
        = db.products.filter (fun row => decide (row.id ≠ p))
    ∧ (ProductRoute.DELETE Number db (some text) accepts errorMessage).1.stocks
        = db.stocks.filter (fun row => decide (row.productId ≠ p))
    ∧ (ProductRoute.DELETE Number db (some text) accepts errorMessage).1.receiptItems
        = db.receiptItems.filter (fun row => decide (row.productId ≠ p))
    ∧ (ProductRoute.DELETE Number db (some text) accepts errorMessage).1.deliveryItems
        = db.deliveryItems.filter (fun row => decide (row.productId ≠ p))
    ∧ (ProductRoute.DELETE Number db (some text) accepts errorMessage).1.transferItems
        = db.transferItems.filter (fun row => decide (row.productId ≠ p)) := by
  have htx := ProductRoute.delete_ok Number db text accepts errorMessage hok
  generalize (ProductRoute.DELETE Number db (some text) accepts errorMessage).1 = db' at htx ⊢
  unfold ProductRoute.deleteTransaction at htx
  simp only [hid, JSNum.strictEq_ofNat_ofNat] at htx
  split at htx
  · rename_i hcond
    simp only [Option.some.injEq] at htx
    subst htx
    simp only [Bool.and_eq_true, List.any_eq_true, decide_eq_true_eq] at hcond
    refine ⟨hcond.2, ?_, ?_, ?_, ?_, ?_, ?_, ?_, ?_, ?_, ?_⟩
    all_goals first
      | (intro row hrow
         simpa using (List.mem_filter.mp hrow).2)
      | (apply List.filter_congr
         intro row _
         simp)
  · simp at htx

/-- C20 at a database with products 1 and 2: deleting product 1 answers 200
and leaves the rows of product 2. -/
theorem delete_product_cascades_witness :
    (ProductRoute.DELETE parseNumber ProductRoute.twoProducts (some "1") true "").2
      = { status := 200, message := "Product deleted successfully" }
    ∧ (ProductRoute.DELETE parseNumber ProductRoute.twoProducts (some "1") true "").1.stocks
      = [{ productId := 2, warehouseId := 10, quantity := 8 }]
    ∧ (ProductRoute.DELETE parseNumber ProductRoute.twoProducts
        (some "1") true "").1.deliveryItems
      = [{ id := 2, documentId := 7, productId := 2, quantity := 3 }]
    ∧ ∀ row ∈ (ProductRoute.DELETE parseNumber ProductRoute.twoProducts
        (some "1") true "").1.products, row.id ≠ 1 := by
  have h := delete_product_cascades parseNumber ProductRoute.twoProducts "1" 1 true ""
    (by decide) (by decide)
  exact ⟨by decide, h.2.2.2.2.2.2.2.1.trans (by decide),
    h.2.2.2.2.2.2.2.2.2.1.trans (by decide), h.2.1⟩

/-! ## The engine of the spec: the ledger -/

theorem Engine.getQuantity_setQuantity (ledger : List Stock) (p w : Nat) (q : Int)
    (p' w' : Nat) :
    Engine.getQuantity (Engine.setQuantity ledger p w q) p' w'
      = if p' = p ∧ w' = w then q else Engine.getQuantity ledger p' w' := by
  induction ledger with
  | nil =>
    by_cases h : p' = p ∧ w' = w
    · simp [Engine.setQuantity, Engine.getQuantity, h.1, h.2]
    · have h' : ¬ (p = p' ∧ w = w') := fun hh => h ⟨hh.1.symm, hh.2.symm⟩
      simp [Engine.setQuantity, Engine.getQuantity, h, h']
  | cons e rest ih =>
    simp only [Engine.setQuantity]
    by_cases he : e.productId = p ∧ e.warehouseId = w
    · rw [if_pos he]
      by_cases h : p' = p ∧ w' = w
      · simp [Engine.getQuantity, h.1, h.2, he.1, he.2]
      · have h' : ¬ (e.productId = p' ∧ e.warehouseId = w') := by
          rw [he.1, he.2]
          exact fun hh => h ⟨hh.1.symm, hh.2.symm⟩
        simp [Engine.getQuantity, h, h']
    · rw [if_neg he]
      by_cases hm : e.productId = p' ∧ e.warehouseId = w'
      · have h : ¬ (p' = p ∧ w' = w) := by
          rw [← hm.1, ← hm.2]
          exact he
        simp [Engine.getQuantity, hm.1, hm.2, h]
      · have := ih
        simp only [Engine.getQuantity] at this ⊢
        simp only [List.find?_cons, hm, decide_False]
        exact this

theorem Engine.setQuantity_rows (ledger : List Stock) (p w : Nat) (q : Int)
    (hq : 0 ≤ q) (h : ∀ e ∈ ledger, 0 ≤ e.quantity) :
    ∀ e ∈ Engine.setQuantity ledger p w q, 0 ≤ e.quantity := by
  induction ledger with
  | nil =>
    intro e he
    simp only [Engine.setQuantity, List.mem_singleton] at he
    rw [he]
    exact hq
  | cons x rest ih =>
    intro e he
    simp only [Engine.setQuantity] at he
    split at he
    · rcases List.mem_cons.mp he with h1 | h1
      · rw [h1]
        exact hq
      · exact h e (List.mem_cons_of_mem _ h1)
    · rcases List.mem_cons.mp he with h1 | h1
      · rw [h1]
        exact h x (List.mem_cons_self _ _)
      · exact ih (fun y hy => h y (List.mem_cons_of_mem _ hy)) e h1

theorem Engine.getQuantity_nonneg (ledger : List Stock) (h : ∀ e ∈ ledger, 0 ≤ e.quantity)
    (p w : Nat) : 0 ≤ Engine.getQuantity ledger p w := by
  unfold Engine.getQuantity
  split
  · rename_i entry hfind
    exact h entry (List.mem_of_find?_eq_some hfind)
  · exact le_refl 0

theorem Engine.applyDelta_ok (ledger ledger' : List Stock) (p w : Nat) (delta : Int)
    (hok : Engine.applyDelta ledger p w delta = .ok ledger') :
    0 ≤ Engine.getQuantity ledger p w + delta
    ∧ ledger' = Engine.setQuantity ledger p w (Engine.getQuantity ledger p w + delta) := by
  unfold Engine.applyDelta at hok
  split at hok
  · simp at hok
  · rename_i hneg
    simp only [Except.ok.injEq] at hok
    exact ⟨not_lt.mp hneg, hok.symm⟩

theorem Engine.applyDelta_rows (ledger ledger' : List Stock) (p w : Nat) (delta : Int)
    (h : ∀ e ∈ ledger, 0 ≤ e.quantity)
    (hok : Engine.applyDelta ledger p w delta = .ok ledger') :
    ∀ e ∈ ledger', 0 ≤ e.quantity := by
  obtain ⟨hq, rfl⟩ := Engine.applyDelta_ok ledger ledger' p w delta hok
  exact Engine.setQuantity_rows ledger p w _ hq h

theorem Engine.applyLine_rows (ledger ledger' : List Stock) (metadata : Engine.Metadata)
    (line : Engine.Line) (actual : Int) (h : ∀ e ∈ ledger, 0 ≤ e.quantity)
    (hok : Engine.applyLine ledger metadata line actual = .ok ledger') :
    ∀ e ∈ ledger', 0 ≤ e.quantity := by
  unfold Engine.applyLine at hok
  split at hok
  · simp at hok
  · rename_i mid hmid
    have hm := Engine.applyDelta_rows ledger mid _ _ _ h hmid
    cases metadata with
    | delivery customer =>
      simp only [Except.ok.injEq] at hok
      rw [← hok]
      exact hm
    | transfer src dst =>
      exact Engine.applyDelta_rows mid ledger' _ _ _ hm hok

theorem Engine.applyLines_rows (metadata : Engine.Metadata)
    (pairs : List (Engine.Line × Int)) : ∀ (ledger ledger' : List Stock),
      (∀ e ∈ ledger, 0 ≤ e.quantity) →
      Engine.applyLines ledger metadata pairs = .ok ledger' →
      ∀ e ∈ ledger', 0 ≤ e.quantity := by
  induction pairs with
  | nil =>
    intro ledger ledger' h hok
    simp only [Engine.applyLines, Except.ok.injEq] at hok
    rw [← hok]
    exact h
  | cons pair rest ih =>
    intro ledger ledger' h hok
    obtain ⟨line, actual⟩ := pair
    simp only [Engine.applyLines] at hok
    split at hok
    · simp at hok
    · rename_i mid hmid
      exact ih mid ledger' (Engine.applyLine_rows ledger mid metadata line actual h hmid) hok

theorem Engine.finalize_ok (s s' : Engine.State) (documentId : Nat) (actuals : List Int)
    (hok : Engine.finalize s documentId actuals = .ok s') :
    ∃ doc, s.documents.find? (fun d => d.id = documentId) = some doc
      ∧ doc.status = .draft
      ∧ actuals.length = doc.lines.length
      ∧ Engine.applyLines s.ledger doc.metadata (doc.lines.zip actuals) = .ok s'.ledger
      ∧ s'.documents = Engine.replaceDocument s.documents (Engine.finalized doc actuals) := by
  unfold Engine.finalize at hok
  split at hok
  · simp at hok
  · rename_i doc hdoc
    split at hok
    · simp at hok
    · rename_i hstatus
      split at hok
      · simp at hok
      · rename_i hlen
        split at hok
        · simp at hok
        · split at hok
          · simp at hok
          · split at hok
            · simp at hok
            · rename_i ledger hledger
              simp only [Except.ok.injEq] at hok
              refine ⟨doc, hdoc, not_not.mp hstatus, not_not.mp hlen, ?_, ?_⟩
              · rw [hledger, ← hok]
              · rw [← hok]

theorem Engine.create_ledger (s s' : Engine.State) (metadata : Engine.Metadata)
    (lines : List Engine.LineRequest) (hok : Engine.create s metadata lines = .ok s') :
    s'.ledger = s.ledger := by
  unfold Engine.create at hok
  split at hok
  · simp at hok
  · split at hok
    · simp at hok
    · split at hok
      · simp at hok
      · simp only [Except.ok.injEq] at hok
        rw [← hok]

theorem Engine.perform_rows (s s' : Engine.State) (op : Engine.Operation)
    (h : ∀ e ∈ s.ledger, 0 ≤ e.quantity) (hok : Engine.perform s op = .ok s') :
    ∀ e ∈ s'.ledger, 0 ≤ e.quantity := by
  cases op with
  | create metadata lines =>
    rw [Engine.create_ledger s s' metadata lines hok]
    exact h
  | finalize documentId actuals =>
    obtain ⟨doc, _, _, _, hlines, _⟩ := Engine.finalize_ok s s' documentId actuals hok
    exact Engine.applyLines_rows doc.metadata _ s.ledger s'.ledger h hlines

theorem Engine.run_rows (operations : List Engine.Operation) : ∀ s : Engine.State,
    (∀ e ∈ s.ledger, 0 ≤ e.quantity) →
    ∀ e ∈ (Engine.run s operations).ledger, 0 ≤ e.quantity := by
  induction operations with
  | nil => intro s h; exact h
  | cons op rest ih =>
    intro s h
    simp only [Engine.run, List.foldl_cons] at ih ⊢
    apply ih
    cases hp : Engine.perform s op with
    | error e => exact h
    | ok s' => exact Engine.perform_rows s s' op h hp

/-- C13: in the engine of the spec, starting from a stock table whose
quantities are all at least 0, after any sequence of create and finalize
operations every row of the table has a quantity that is at least 0, and so
has every `(product, warehouse)` pair. -/
theorem stock_never_negative (s : Engine.State) (operations : List Engine.Operation)
    (h : ∀ e ∈ s.ledger, 0 ≤ e.quantity) :
    (∀ e ∈ (Engine.run s operations).ledger, 0 ≤ e.quantity)
    ∧ ∀ p w, 0 ≤ Engine.getQuantity (Engine.run s operations).ledger p w :=
  ⟨Engine.run_rows operations s h,
   Engine.getQuantity_nonneg _ (Engine.run_rows operations s h)⟩

/-- C13 at the scenarios of the spec: from 50 units, a transfer of 30 is
created and finalized, then a delivery of 20 is created and finalized, then a
delivery of 1 more is refused. -/
theorem stock_never_negative_witness :
    (Engine.run Engine.fiftyInStock
        [.create (.transfer 10 20) [{ productId := 1, requestedQuantity := 30, warehouseId := 10 }],
         .finalize 1 [30],
         .create (.delivery "ACME") [{ productId := 1, requestedQuantity := 20, warehouseId := 10 }],
         .finalize 2 [20],
         .create (.delivery "ACME")
           [{ productId := 1, requestedQuantity := 1, warehouseId := 10 }]]).ledger
      = [{ productId := 1, warehouseId := 10, quantity := 0 },
         { productId := 1, warehouseId := 20, quantity := 30 }]
    ∧ ∀ p w, 0 ≤ Engine.getQuantity
        (Engine.run Engine.fiftyInStock
          [.create (.transfer 10 20) [{ productId := 1, requestedQuantity := 30, warehouseId := 10 }],
           .finalize 1 [30],
           .create (.delivery "ACME") [{ productId := 1, requestedQuantity := 20, warehouseId := 10 }],
           .finalize 2 [20],
           .create (.delivery "ACME")
             [{ productId := 1, requestedQuantity := 1, warehouseId := 10 }]]).ledger p w :=
  ⟨by decide, (stock_never_negative Engine.fiftyInStock _ (by decide)).2⟩

/-! ## The engine of the spec: finalize -/

theorem Engine.applyLine_other_product (ledger ledger' : List Stock)
    (metadata : Engine.Metadata) (line : Engine.Line) (actual : Int) (p w : Nat)
    (hp : p ≠ line.productId)
    (hok : Engine.applyLine ledger metadata line actual = .ok ledger') :
    Engine.getQuantity ledger' p w = Engine.getQuantity ledger p w := by
  unfold Engine.applyLine at hok
  split at hok
  · simp at hok
  · rename_i mid hmid
    obtain ⟨_, rfl⟩ := Engine.applyDelta_ok _ _ _ _ _ hmid
    cases metadata with
    | delivery customer =>
      simp only [Except.ok.injEq] at hok
      rw [← hok]
      simp [Engine.getQuantity_setQuantity, hp]
    | transfer src dst =>
      obtain ⟨_, rfl⟩ := Engine.applyDelta_ok _ _ _ _ _ hok
      simp [Engine.getQuantity_setQuantity, hp]

theorem Engine.applyLines_other_product (metadata : Engine.Metadata) (p w : Nat)
    (pairs : List (Engine.Line × Int)) : ∀ (ledger ledger' : List Stock),
      (∀ pair ∈ pairs, p ≠ pair.1.productId) →
      Engine.applyLines ledger metadata pairs = .ok ledger' →
      Engine.getQuantity ledger' p w = Engine.getQuantity ledger p w := by
  induction pairs with
  | nil =>
    intro ledger ledger' _ hok
    simp only [Engine.applyLines, Except.ok.injEq] at hok
    rw [hok]
  | cons pair rest ih =>
    intro ledger ledger' hp hok
    obtain ⟨line, actual⟩ := pair
    simp only [Engine.applyLines] at hok
    split at hok
    · simp at hok
    · rename_i mid hmid
      rw [ih mid ledger' (fun x hx => hp x (List.mem_cons_of_mem _ hx)) hok]
      exact Engine.applyLine_other_product ledger mid metadata line actual p w
        (hp _ (List.mem_cons_self _ _)) hmid

theorem Engine.applyLine_transfer (ledger ledger' : List Stock) (src dst : Nat)
    (line : Engine.Line) (actual : Int) (hne : src ≠ dst)
    (hsrc : line.sourceWarehouseId = src)
    (hok : Engine.applyLine ledger (.transfer src dst) line actual = .ok ledger') :
    Engine.getQuantity ledger' line.productId src
        = Engine.getQuantity ledger line.productId src - actual
    ∧ Engine.getQuantity ledger' line.productId dst
        = Engine.getQuantity ledger line.productId dst + actual := by
  unfold Engine.applyLine at hok
  split at hok
  · simp at hok
  · rename_i mid hmid
    obtain ⟨_, rfl⟩ := Engine.applyDelta_ok _ _ _ _ _ hmid
    simp only [] at hok
    obtain ⟨_, rfl⟩ := Engine.applyDelta_ok _ _ _ _ _ hok
    rw [hsrc]
    have hne' : ¬ dst = src := fun h => hne h.symm
    constructor
    · simp only [Engine.getQuantity_setQuantity]
      simp [hne]
      ring
    · simp only [Engine.getQuantity_setQuantity]
      simp [hne']

theorem Engine.applyLines_transfer (src dst : Nat) (hne : src ≠ dst)
    (pairs : List (Engine.Line × Int)) : ∀ (ledger ledger' : List Stock),
      (∀ pair ∈ pairs, pair.1.sourceWarehouseId = src) →
      (pairs.map (fun pair => pair.1.productId)).Nodup →
      Engine.applyLines ledger (.transfer src dst) pairs = .ok ledger' →
      ∀ pair ∈ pairs,
        Engine.getQuantity ledger' pair.1.productId src
            = Engine.getQuantity ledger pair.1.productId src - pair.2
        ∧ Engine.getQuantity ledger' pair.1.productId dst
            = Engine.getQuantity ledger pair.1.productId dst + pair.2 := by
  induction pairs with
  | nil => intro _ _ _ _ _ pair hpair; simp at hpair
  | cons head rest ih =>
    intro ledger ledger' hsrc hnodup hok pair hpair
    obtain ⟨line, actual⟩ := head
    simp only [Engine.applyLines] at hok
    split at hok
    · simp at hok
    · rename_i mid hmid
      simp only [List.map_cons, List.nodup_cons, List.mem_map, not_exists, not_and] at hnodup
      rcases List.mem_cons.mp hpair with hhead | hrest
      · subst hhead
        have hother : ∀ x ∈ rest, line.productId ≠ x.1.productId :=
          fun x hx h => hnodup.1 x hx h.symm
        rw [Engine.applyLines_other_product _ _ src rest mid ledger' hother hok,
          Engine.applyLines_other_product _ _ dst rest mid ledger' hother hok]
        exact Engine.applyLine_transfer ledger mid src dst line actual hne
          (hsrc _ (List.mem_cons_self _ _)) hmid
      · have hdiff : pair.1.productId ≠ line.productId := fun h => hnodup.1 pair hrest h
        have := ih mid ledger' (fun x hx => hsrc x (List.mem_cons_of_mem _ hx))
          hnodup.2 hok pair hrest
        rw [Engine.applyLine_other_product ledger mid _ line actual _ src hdiff hmid,
          Engine.applyLine_other_product ledger mid _ line actual _ dst hdiff hmid] at this
        exact this

/-- C14: in the engine of the spec, a finalize that succeeds on a transfer
(two different warehouses, one line per product, as `Create` makes them)
decreases, for every line with actual quantity `q`, the source warehouse's
quantity of the line's product by `q` and increases the destination
warehouse's by `q`; the sum over the two warehouses is unchanged. -/
theorem transfer_finalize_conserves (s s' : Engine.State) (documentId : Nat)
    (actuals : List Int) (doc : Engine.Document) (src dst : Nat)
    (hdoc : s.documents.find? (fun d => d.id = documentId) = some doc)
    (hmeta : doc.metadata = .transfer src dst) (hne : src ≠ dst)
    (hsrc : ∀ line ∈ doc.lines, line.sourceWarehouseId = src)
    (hnodup : (doc.lines.map (fun l => l.productId)).Nodup)
    (hok : Engine.finalize s documentId actuals = .ok s') :
    ∀ line q, (line, q) ∈ doc.lines.zip actuals →
      Engine.getQuantity s'.ledger line.productId src
          = Engine.getQuantity s.ledger line.productId src - q
      ∧ Engine.getQuantity s'.ledger line.productId dst
          = Engine.getQuantity s.ledger line.productId dst + q
      ∧ Engine.getQuantity s'.ledger line.productId src
            + Engine.getQuantity s'.ledger line.productId dst
          = Engine.getQuantity s.ledger line.productId src
            + Engine.getQuantity s.ledger line.productId dst := by
  intro line q hmem
  obtain ⟨doc', hdoc', _, hlen, hlines, _⟩ := Engine.finalize_ok s s' documentId actuals hok
  rw [hdoc] at hdoc'
  simp only [Option.some.injEq] at hdoc'
  subst hdoc'
  rw [hmeta] at hlines
  have hfst : (doc.lines.zip actuals).map (fun pair => pair.1.productId)
      = doc.lines.map (fun l => l.productId) := by
    have : (doc.lines.zip actuals).map Prod.fst = doc.lines :=
      List.map_fst_zip _ _ (le_of_eq hlen.symm)
    calc (doc.lines.zip actuals).map (fun pair => pair.1.productId)
        = ((doc.lines.zip actuals).map Prod.fst).map (fun l => l.productId) := by
          rw [List.map_map]; rfl
      _ = doc.lines.map (fun l => l.productId) := by rw [this]
  have h := Engine.applyLines_transfer src dst hne (doc.lines.zip actuals) s.ledger s'.ledger
    (fun pair hpair => hsrc pair.1 (List.of_mem_zip hpair).1)
    (by rw [hfst]; exact hnodup) hlines (line, q) hmem
  refine ⟨h.1, h.2, ?_⟩
  rw [h.1, h.2]
  ring

/-- C14 at the scenario of the spec: 50 units in warehouse 10, a transfer of
30 to warehouse 20 is finalized with actual quantity 30; warehouse 10 then
holds 20 and warehouse 20 holds 30. -/
theorem transfer_finalize_conserves_witness :
    Engine.finalize Engine.transferDrafted 1 [30] = .ok Engine.transferFinalized
    ∧ Engine.getQuantity Engine.transferDrafted.ledger 1 10 = 50
    ∧ Engine.getQuantity Engine.transferDrafted.ledger 1 20 = 0
    ∧ Engine.getQuantity Engine.transferFinalized.ledger 1 10 = 50 - 30
    ∧ Engine.getQuantity Engine.transferFinalized.ledger 1 20 = 0 + 30 := by
  have h := transfer_finalize_conserves Engine.transferDrafted Engine.transferFinalized
    1 [30]
    { id := 1, metadata := .transfer 10 20, status := .draft,
      lines := [{ productId := 1, requestedQuantity := 30, sourceWarehouseId := 10,
                  actualQuantity := none }] }
    10 20 (by decide) rfl (by decide) (by decide) (by decide) (by decide)
    { productId := 1, requestedQuantity := 30, sourceWarehouseId := 10,
      actualQuantity := none } 30 (by decide)
  exact ⟨by decide, by decide, by decide, h.1, h.2.1⟩

/-! ## Finalize twice -/

/-- C12, as stated, fails on the pages: the finalize of the listed draft
succeeds, the refetch of the list fails so the row still shows `draft`, the
row is opened again and submitted; a second finalize request is sent for the
same document.  On the deliveries page and on the transfers page. -/
theorem second_finalize_request_sent :
    (Deliveries.requestsOf Deliveries.readyToValidate (.submitValidation Reply.ok)).head?
      = some (Deliveries.Request.validate
          { deliveryId := 7, status := "validated",
            items := [{ deliveryItemId := 1, deliveredQty := JSNum.fin 40 }] })
    ∧ (Deliveries.requestsOf
        (Deliveries.run parseNumber Deliveries.readyToValidate
          [.submitValidation Reply.ok, .deliveriesFetched none, .validate 0])
        (.submitValidation Reply.ok)).head?
      = some (Deliveries.Request.validate
          { deliveryId := 7, status := "validated",
            items := [{ deliveryItemId := 1, deliveredQty := JSNum.fin 0 }] })
    ∧ (Transfers.requestsOf parseNumber Transfers.readyToComplete
        (.submitCompletion Reply.ok)).head?
      = some (Transfers.Request.complete
          { transferId := 9, status := "completed",
            items := [{ transferItemId := 1, transferredQty := JSNum.fin 40 }] })
    ∧ (Transfers.requestsOf parseNumber
        (Transfers.run parseNumber Transfers.readyToComplete
          [.submitCompletion Reply.ok, .transfersFetched none, .complete 0])
        (.submitCompletion Reply.ok)).head?
      = some (Transfers.Request.complete
          { transferId := 9, status := "completed",
            items := [{ transferItemId := 1, transferredQty := JSNum.fin 0 }] }) := by
  refine ⟨?_, ?_, ?_, ?_⟩ <;> decide

theorem Engine.find_replaced (doc : Engine.Document)
    (documents : List Engine.Document) (h : ∃ d ∈ documents, d.id = doc.id) :
    (Engine.replaceDocument documents doc).find? (fun d => d.id = doc.id) = some doc := by
  induction documents with
  | nil => simp at h
  | cons x rest ih =>
    simp only [Engine.replaceDocument, List.map_cons, List.find?_cons]
    by_cases hx : x.id = doc.id
    · simp [hx]
    · have hrest : ∃ d ∈ rest, d.id = doc.id := by
        obtain ⟨d, hd, hdk⟩ := h
        rcases List.mem_cons.mp hd with h1 | h1
        · exact absurd (h1 ▸ hdk) hx
        · exact ⟨d, h1, hdk⟩
      rw [if_neg hx]
      simp only [hx, decide_False]
      exact ih hrest

theorem Engine.find_replaced_other (doc : Engine.Document) (k : Nat) (hk : doc.id ≠ k)
    (documents : List Engine.Document) :
    (Engine.replaceDocument documents doc).find? (fun d => d.id = k)
      = documents.find? (fun d => d.id = k) := by
  induction documents with
  | nil => rfl
  | cons x rest ih =>
    simp only [Engine.replaceDocument, List.map_cons, List.find?_cons] at ih ⊢
    by_cases hx : x.id = doc.id
    · have hxk : ¬ x.id = k := by rw [hx]; exact hk
      rw [if_pos hx]
      simp only [hk, hxk, decide_False]
      exact ih
    · rw [if_neg hx]
      by_cases hxk : x.id = k
      · simp [hxk]
      · simp only [hxk, decide_False]
        exact ih

theorem Engine.create_documents (s s' : Engine.State) (metadata : Engine.Metadata)
    (lines : List Engine.LineRequest) (hok : Engine.create s metadata lines = .ok s') :
    ∃ doc, s'.documents = s.documents ++ [doc] := by
  unfold Engine.create at hok
  split at hok
  · simp at hok
  · split at hok
    · simp at hok
    · split at hok
      · simp at hok
      · simp only [Except.ok.injEq] at hok
        exact ⟨_, by rw [← hok]⟩

theorem Engine.finalize_refused (s : Engine.State) (k : Nat) (actuals : List Int)
    (h : ∃ doc, s.documents.find? (fun d => d.id = k) = some doc ∧ doc.status = .finalized) :
    Engine.finalize s k actuals = .error .alreadyFinalized := by
  obtain ⟨doc, hfind, hstatus⟩ := h
  unfold Engine.finalize
  rw [hfind]
  simp [hstatus]

theorem Engine.perform_keeps_finalized (s s' : Engine.State) (op : Engine.Operation)
    (k : Nat)
    (h : ∃ doc, s.documents.find? (fun d => d.id = k) = some doc ∧ doc.status = .finalized)
    (hok : Engine.perform s op = .ok s') :
    ∃ doc, s'.documents.find? (fun d => d.id = k) = some doc ∧ doc.status = .finalized := by
  obtain ⟨doc, hfind, hstatus⟩ := h
  cases op with
  | create metadata lines =>
    obtain ⟨new, hdocs⟩ := Engine.create_documents s s' metadata lines hok
    refine ⟨doc, ?_, hstatus⟩
    rw [hdocs, List.find?_append, hfind]
    rfl
  | finalize documentId actuals =>
    obtain ⟨other, hother, hdraft, _, _, hdocs⟩ :=
      Engine.finalize_ok s s' documentId actuals hok
    have hid : other.id = documentId := by
      simpa using List.find?_some hother
    have hne : documentId ≠ k := by
      intro heq
      rw [heq, hfind] at hother
      simp only [Option.some.injEq] at hother
      rw [hother, hdraft] at hstatus
      exact absurd hstatus (by decide)
    refine ⟨doc, ?_, hstatus⟩
    rw [hdocs, Engine.find_replaced_other _ k (by
      show (Engine.finalized other actuals).id ≠ k
      simp only [Engine.finalized]
      rw [hid]
      exact hne)]
    exact hfind

theorem Engine.run_keeps_finalized (k : Nat) (operations : List Engine.Operation) :
    ∀ s : Engine.State,
      (∃ doc, s.documents.find? (fun d => d.id = k) = some doc ∧ doc.status = .finalized) →
      ∃ doc, (Engine.run s operations).documents.find? (fun d => d.id = k) = some doc
        ∧ doc.status = .finalized := by
  induction operations with
  | nil => intro s h; exact h
  | cons op rest ih =>
    intro s h
    simp only [Engine.run, List.foldl_cons] at ih ⊢
    apply ih
    cases hp : Engine.perform s op with
    | error err => exact h
    | ok s' => exact Engine.perform_keeps_finalized s s' op k h hp

/-- C12, amended: exactly-once is the engine's guarantee.  In the engine of
the spec, once a finalize of a document has succeeded, every further finalize
of it, after any operations in between, returns `AlreadyFinalizedError` and
leaves ledger and documents as they are, so the stock change is applied once.
On the pages, a finalize that succeeded clears the selection, so a
`submitValidation` (`submitCompletion`) called again before a document is
opened sends no request and changes nothing, without setting an error. -/
theorem finalize_applied_once (e e' : Engine.State) (documentId : Nat)
    (actuals again : List Int) (between : List Engine.Operation)
    (s : Deliveries.State) (t : Transfers.State) (reply : Reply)
    (hok : Engine.finalize e documentId actuals = .ok e') :
    Engine.finalize (Engine.run e' between) documentId again = .error .alreadyFinalized
    ∧ Engine.run e
        (.finalize documentId actuals :: (between ++ [.finalize documentId again]))
      = Engine.run e (.finalize documentId actuals :: between)
    ∧ Engine.run e (.finalize documentId actuals :: between) = Engine.run e' between
    ∧ Deliveries.submitValidation (Deliveries.submitValidation s Reply.ok).1 reply
        = ((Deliveries.submitValidation s Reply.ok).1, [])
    ∧ Transfers.submitCompletion (Transfers.submitCompletion t Reply.ok).1 reply
        = ((Transfers.submitCompletion t Reply.ok).1, []) := by
  have hfinal : ∃ doc, e'.documents.find? (fun d => d.id = documentId) = some doc
      ∧ doc.status = .finalized := by
    obtain ⟨doc, hdoc, _, _, _, hdocs⟩ := Engine.finalize_ok e e' documentId actuals hok
    have hid : doc.id = documentId := by
      simpa using List.find?_some hdoc
    have hfind := Engine.find_replaced (Engine.finalized doc actuals)
      e.documents ⟨doc, List.mem_of_find?_eq_some hdoc, rfl⟩
    have hid' : (Engine.finalized doc actuals).id = documentId := hid
    rw [hid'] at hfind
    exact ⟨_, by rw [hdocs]; exact hfind, rfl⟩
  have hagain : Engine.finalize (Engine.run e' between) documentId again
      = .error .alreadyFinalized :=
    Engine.finalize_refused _ _ _ (Engine.run_keeps_finalized documentId between e' hfinal)
  have hfirst : ∀ rest, Engine.run e (.finalize documentId actuals :: rest)
      = Engine.run e' rest := by
    intro rest
    simp [Engine.run, Engine.perform, hok]
  refine ⟨hagain, ?_, hfirst between, ?_, ?_⟩
  · rw [hfirst, hfirst]
    have happend : Engine.run e' (between ++ [.finalize documentId again])
        = Engine.run (Engine.run e' between) [.finalize documentId again] := by
      simp only [Engine.run, List.foldl_append]
    have hperform : Engine.perform (Engine.run e' between) (.finalize documentId again)
        = .error .alreadyFinalized := hagain
    rw [happend]
    simp only [Engine.run, List.foldl_cons, List.foldl_nil] at hperform ⊢
    rw [hperform]
  · cases hsel : s.selectedDelivery with
    | none => simp [Deliveries.submitValidation, hsel]
    | some d => simp [Deliveries.submitValidation, hsel]
  · cases hsel : t.selectedTransfer with
    | none => simp [Transfers.submitCompletion, hsel]
    | some d => simp [Transfers.submitCompletion, hsel]

/-- C12, amended, at the scenario of the spec: the transfer of 30 is finalized
once; a delivery of 20 is then created and finalized; a second finalize of the
transfer is refused and the ledger stays as the delivery left it. -/
theorem finalize_applied_once_witness :
    Engine.finalize Engine.transferDrafted 1 [30] = .ok Engine.transferFinalized
    ∧ (Engine.run Engine.transferFinalized
        [.create (.delivery "ACME")
           [{ productId := 1, requestedQuantity := 20, warehouseId := 10 }],
         .finalize 2 [20]]).ledger
      = [{ productId := 1, warehouseId := 10, quantity := 0 },
         { productId := 1, warehouseId := 20, quantity := 30 }]
    ∧ Engine.finalize
        (Engine.run Engine.transferFinalized
          [.create (.delivery "ACME")
             [{ productId := 1, requestedQuantity := 20, warehouseId := 10 }],
           .finalize 2 [20]])
        1 [30]
      = .error .alreadyFinalized
    ∧ Engine.run Engine.transferDrafted
        (.finalize 1 [30] ::
          ([.create (.delivery "ACME")
              [{ productId := 1, requestedQuantity := 20, warehouseId := 10 }],
            .finalize 2 [20]] ++ [.finalize 1 [30]]))
      = Engine.run Engine.transferDrafted
        (.finalize 1 [30] ::
          [.create (.delivery "ACME")
             [{ productId := 1, requestedQuantity := 20, warehouseId := 10 }],
           .finalize 2 [20]]) := by
  have h := finalize_applied_once Engine.transferDrafted Engine.transferFinalized 1 [30] [30]
    [.create (.delivery "ACME")
       [{ productId := 1, requestedQuantity := 20, warehouseId := 10 }],
     .finalize 2 [20]]
    Deliveries.readyToValidate Transfers.readyToComplete Reply.ok (by decide)
  exact ⟨by decide, by decide, h.1, h.2.1⟩

/-! ## Deleting a product leaves the documents -/

/-- C21: for every database, every `id` parameter and every outcome of the
transaction, the `DELETE` handler leaves the delivery documents and the
transfer documents exactly as they were; of the line tables it only removes
rows. -/
theorem delete_keeps_documents (Number : String → JSNum) (db : ProductRoute.Database)
    (id : Option String) (accepts : Bool) (errorMessage : String) :
    (ProductRoute.DELETE Number db id accepts errorMessage).1.deliveries = db.deliveries
    ∧ (ProductRoute.DELETE Number db id accepts errorMessage).1.transfers = db.transfers
    ∧ ((ProductRoute.DELETE Number db id accepts errorMessage).1.deliveryItems).Sublist
        db.deliveryItems
    ∧ ((ProductRoute.DELETE Number db id accepts errorMessage).1.transferItems).Sublist
        db.transferItems
    ∧ ((ProductRoute.DELETE Number db id accepts errorMessage).1.receiptItems).Sublist
        db.receiptItems := by
  unfold ProductRoute.DELETE
  cases id with
  | none => exact ⟨rfl, rfl, List.Sublist.refl _, List.Sublist.refl _, List.Sublist.refl _⟩
  | some text =>
    simp only []
    split
    · exact ⟨rfl, rfl, List.Sublist.refl _, List.Sublist.refl _, List.Sublist.refl _⟩
    · cases htx : ProductRoute.deleteTransaction db (Number text) accepts with
      | none => exact ⟨rfl, rfl, List.Sublist.refl _, List.Sublist.refl _, List.Sublist.refl _⟩
      | some db' =>
        unfold ProductRoute.deleteTransaction at htx
        simp only [] at htx
        split at htx
        · simp only [Option.some.injEq] at htx
          subst htx
          exact ⟨rfl, rfl, List.filter_sublist _, List.filter_sublist _,
            List.filter_sublist _⟩
        · simp at htx

/-- C24: a `DELETE` request whose `id` parameter is absent or empty is answered
with status 400 and the message `Product ID is required`, and the database is
left as it was. -/
theorem delete_without_id (Number : String → JSNum) (db : ProductRoute.Database)
    (accepts : Bool) (errorMessage : String) :
    ProductRoute.DELETE Number db none accepts errorMessage
      = (db, { status := 400, message := "Product ID is required" })
    ∧ ProductRoute.DELETE Number db (some "") accepts errorMessage
      = (db, { status := 400, message := "Product ID is required" }) := by
  constructor
  · rfl
  · simp [ProductRoute.DELETE]

/-! ## Opening the finalize dialog -/

theorem lookupQty_setQty (data : List (Nat × JSNum)) (k : Nat) (v : JSNum) (key : Nat) :
    lookupQty (setQty data k v) key
      = if key = k then some v else lookupQty data key := by
  induction data with
  | nil =>
    by_cases h : key = k
    · simp [setQty, lookupQty, h]
    · have h' : ¬ k = key := fun hh => h hh.symm
      simp [setQty, lookupQty, h, h']
  | cons p rest ih =>
    simp only [setQty]
    by_cases hp : p.1 = k
    · rw [if_pos hp]
      by_cases h : key = k
      · simp [lookupQty, h]
      · have h' : ¬ k = key := fun hh => h hh.symm
        have h'' : ¬ p.1 = key := by rw [hp]; exact h'
        simp [lookupQty, h, h', h'']
    · rw [if_neg hp]
      by_cases hm : p.1 = key
      · have h : ¬ key = k := by rw [← hm]; exact hp
        simp [lookupQty, hm, h]
      · have hbeq : (p.1 == key) = false := by simpa using hm
        have := ih
        simp only [lookupQty] at this ⊢
        simp only [List.find?_cons, hbeq]
        exact this

theorem lookupQty_zeros (key : Nat) (ids : List Nat) : ∀ acc : List (Nat × JSNum),
    lookupQty (ids.foldl (fun acc id => setQty acc id (JSNum.fin 0)) acc) key
      = if key ∈ ids then some (JSNum.fin 0) else lookupQty acc key := by
  induction ids with
  | nil => intro acc; simp
  | cons id rest ih =>
    intro acc
    simp only [List.foldl_cons]
    rw [ih, lookupQty_setQty]
    by_cases hrest : key ∈ rest
    · simp [hrest]
    · by_cases hid : key = id
      · simp [hid]
      · simp [hrest, hid]

/-- C23: for every document, `handleValidateDelivery` (`handleCompleteTransfer`)
sets `validationData` to the map that holds 0 under the id of every line of
the document and nothing under any other key, and a `submitValidation`
(`submitCompletion`) issued right after it sends actual quantity 0 for every
line. -/
theorem open_dialog_records_zero (s : Deliveries.State) (d : Deliveries.Delivery)
    (t : Transfers.State) (tr : Transfers.Transfer) (reply : Reply) :
    (∀ key, lookupQty (Deliveries.handleValidateDelivery s d).validationData key
        = if key ∈ d.items.map (fun i => i.id) then some (JSNum.fin 0) else none)
    ∧ (Deliveries.submitValidation (Deliveries.handleValidateDelivery s d) reply).2.head?
        = some (Deliveries.Request.validate
            { deliveryId := d.id, status := "validated",
              items := d.items.map (fun item =>
                { deliveryItemId := item.id, deliveredQty := JSNum.fin 0 }) })
    ∧ (∀ key, lookupQty (Transfers.handleCompleteTransfer t tr).validationData key
        = if key ∈ tr.items.map (fun i => i.id) then some (JSNum.fin 0) else none)
    ∧ (Transfers.submitCompletion (Transfers.handleCompleteTransfer t tr) reply).2.head?
        = some (Transfers.Request.complete
            { transferId := tr.id, status := "completed",
              items := tr.items.map (fun item =>
                { transferItemId := item.id, transferredQty := JSNum.fin 0 }) }) := by
  have hD : ∀ key, lookupQty (Deliveries.handleValidateDelivery s d).validationData key
      = if key ∈ d.items.map (fun i => i.id) then some (JSNum.fin 0) else none := by
    intro key
    have h := lookupQty_zeros key (d.items.map (fun i => i.id)) []
    simpa [Deliveries.handleValidateDelivery, List.foldl_map, lookupQty] using h
  have hT : ∀ key, lookupQty (Transfers.handleCompleteTransfer t tr).validationData key
      = if key ∈ tr.items.map (fun i => i.id) then some (JSNum.fin 0) else none := by
    intro key
    have h := lookupQty_zeros key (tr.items.map (fun i => i.id)) []
    simpa [Transfers.handleCompleteTransfer, List.foldl_map, lookupQty] using h
  refine ⟨hD, ?_, hT, ?_⟩
  · rw [finalize_request_shape_delivery _ d reply rfl]
    simp only [Deliveries.validationItems, Option.some.injEq,
      Deliveries.Request.validate.injEq, Deliveries.ValidatePayload.mk.injEq, true_and]
    apply List.map_congr_left
    intro item hitem
    have hmem : item.id ∈ d.items.map (fun i => i.id) := List.mem_map_of_mem _ hitem
    rw [hD item.id, if_pos hmem]
    simp [JSNum.orZero, JSNum.truthy]
  · rw [finalize_request_shape_transfer _ tr reply rfl]
    simp only [Transfers.completionItems, Option.some.injEq,
      Transfers.Request.complete.injEq, Transfers.CompletePayload.mk.injEq, true_and]
    apply List.map_congr_left
    intro item hitem
    have hmem : item.id ∈ tr.items.map (fun i => i.id) := List.mem_map_of_mem _ hitem
    rw [hT item.id, if_pos hmem]
    simp [JSNum.orZero, JSNum.truthy]

/-! ## Create: the stock check is made line by line -/

/-- C22: there is a stock snapshot and an empty form of the deliveries page on
which two `addItemToDelivery` calls for the same product and warehouse are
both accepted, each quantity being at most the available stock, after which
the lines of that pair in `formData.items` ask in total for more than the
available stock: with 50 units available, 30 is added twice. -/
theorem create_check_is_per_line :
    ∃ s : Deliveries.State,
      s.formData.items = []
      ∧ availableFor s.stocks (JSNum.fin 1) (JSNum.fin 10) = 50
      ∧ (Deliveries.runForm parseNumber s
          [.itemChange .productId "1", .itemChange .warehouseId "10",
           .itemChange .quantity "30", .addItem]).formData.items.map
            (fun i => (i.productId, i.warehouseId, i.quantity))
        = [(JSNum.fin 1, JSNum.fin 10, JSNum.fin 30)]
      ∧ (Deliveries.runForm parseNumber s
          [.itemChange .productId "1", .itemChange .warehouseId "10",
           .itemChange .quantity "30", .addItem,
           .itemChange .productId "1", .itemChange .warehouseId "10",
           .itemChange .quantity "30", .addItem]).formData.items.map
            (fun i => (i.productId, i.warehouseId, i.quantity))
        = [(JSNum.fin 1, JSNum.fin 10, JSNum.fin 30),
           (JSNum.fin 1, JSNum.fin 10, JSNum.fin 30)]
      ∧ (JSNum.fin 30).le (JSNum.ofInt 50) = true
      ∧ Deliveries.requestedFor
          (Deliveries.runForm parseNumber s
            [.itemChange .productId "1", .itemChange .warehouseId "10",
             .itemChange .quantity "30", .addItem,
             .itemChange .productId "1", .itemChange .warehouseId "10",
             .itemChange .quantity "30", .addItem]).formData.items
          (JSNum.fin 1) (JSNum.fin 10)
        = JSNum.fin 60
      ∧ (JSNum.fin 60).gt (JSNum.ofInt 50) = true := by
  refine ⟨Deliveries.stockOf50, by decide, by decide, by decide, by decide, by decide, ?_,
    by decide⟩
  have hitems : (Deliveries.runForm parseNumber Deliveries.stockOf50
      [.itemChange .productId "1", .itemChange .warehouseId "10",
       .itemChange .quantity "30", .addItem,
       .itemChange .productId "1", .itemChange .warehouseId "10",
       .itemChange .quantity "30", .addItem]).formData.items
      = [{ productId := JSNum.fin 1, productName := some "Widget", productSku := some "W-1",
           quantity := JSNum.fin 30, warehouseId := JSNum.fin 10,
           warehouseName := some "Main" },
         { productId := JSNum.fin 1, productName := some "Widget", productSku := some "W-1",
           quantity := JSNum.fin 30, warehouseId := JSNum.fin 10,
           warehouseName := some "Main" }] := by
    decide
  rw [hitems]
  simp [Deliveries.requestedFor, JSNum.strictEq, JSNum.add]
  norm_num

end Dreamwave
